import Mathlib

/-!
# Perfect Pomodoro: the session cycle of `renderer.js`

A shallow embedding of the class `PomodoroTimer` of `src/renderer.js`.

* The object's fields, the parts of the page it reads and writes, the two
  `localStorage` keys it uses, the messages it sends over `ipcRenderer` and the
  browser's timers are the fields of one record, `PomodoroTimer`; every method
  is a function from states to states.
* A JavaScript number is `JSNum`: an integer or `NaN`.  A duration input is
  represented by what `parseInt` returns for its text.  Numbers are doubles: up
  to 2^53 integer arithmetic is exact, beyond it `x * 60` and `x--` round to the
  nearest double, and from 10^21 on `toString` prints an exponent.  `Infinity`
  is not represented.
* `new Date()` is an argument `now` (milliseconds since the epoch).
* An interval created by `setInterval` is an entry of `intervals`; a callback
  scheduled by `setTimeout` is counted in `pendingStarts`.
* Left out: the CSS changes of `applyTheme` and `updateTheme`, the audio element
  of `playNotification` and the width of the progress bar (a floating point
  percentage).  None of them writes a field of the timer.
-/

/-- A JavaScript number as the timer meets it: an integer, or `NaN`
(what `parseInt` gives for a text that does not start with digits). The integer
stands for a double; every integer up to 2^53 in magnitude is one. -/
inductive JSNum where
  | nan : JSNum
  | int (v : Int) : JSNum
  deriving DecidableEq, Repr

/-- Halving `n` until it is below 2, at most `fuel` times: the number of halvings. -/
def log2Fuel : Nat → Nat → Nat
  | 0, _ => 0
  | fuel + 1, n => if n < 2 then 0 else log2Fuel fuel (n / 2) + 1

/-- The position of the highest bit of `n`: the floor of its binary logarithm. -/
def bitLog (n : Nat) : Nat :=
  log2Fuel n n

/-- The double nearest to a natural number, a tie going to the even significand
(IEEE 754 round to nearest). Below 2^53 every natural number is a double; from
there on doubles are the multiples of `2 ^ e` with 53 significant bits. The
overflow to `Infinity` at 2^1024 is not represented. -/
def roundDoubleNat (n : Nat) : Nat :=
  if n < 9007199254740992 then n
  else
    let e := bitLog n - 52
    let q := n / 2 ^ e
    let r := n % 2 ^ e
    if 2 * r < 2 ^ e then q * 2 ^ e
    else if 2 ^ e < 2 * r then (q + 1) * 2 ^ e
    else (q + q % 2) * 2 ^ e

/-- The double nearest to an integer. -/
def roundDouble (v : Int) : Int :=
  if 0 ≤ v then (roundDoubleNat v.natAbs : Int) else -(roundDoubleNat v.natAbs : Int)

/-- The quotient `a / b` rounded to the nearest natural number, a tie going to
the even one. -/
def roundHalfEven (a b : Nat) : Nat :=
  let q := a / b
  let r := a % b
  if 2 * r < b then q else if b < 2 * r then q + 1 else q + q % 2

/-- The candidates `(s, e)` for printing the double `n` with `k` digits: `s` has
`k` digits and `s * 10 ^ e` is a decimal that rounds to `n`. -/
def expCandidates (n k : Nat) : List (Nat × Nat) :=
  let d := (Nat.toDigits 10 n).length
  ([d - k, d - k + 1].flatMap fun e => [(n / 10 ^ e, e), (n / 10 ^ e + 1, e)]).filter
    fun c => 10 ^ (k - 1) ≤ c.1 && c.1 < 10 ^ k && roundDoubleNat (c.1 * 10 ^ c.2) == n

/-- The distance of the decimal `s * 10 ^ e` from `n`. -/
def expDistance (n : Nat) (c : Nat × Nat) : Nat :=
  (c.1 * 10 ^ c.2 - n) + (n - c.1 * 10 ^ c.2)

/-- The candidate nearest to `n`; of two equally near ones, the even one. -/
def expBest (n : Nat) : List (Nat × Nat) → Option (Nat × Nat)
  | [] => none
  | c :: cs =>
    match expBest n cs with
    | none => some c
    | some b =>
      if expDistance n c < expDistance n b ∨
          (expDistance n c = expDistance n b ∧ c.1 % 2 < b.1 % 2) then some c
      else some b

/-- The shortest digits that identify the double `n`, with their exponent: the
first number of digits from 1 to 17 that has a candidate. -/
def expShortest (n : Nat) : Option (Nat × Nat) :=
  (List.range 17).findSome? fun i => expBest n (expCandidates n (i + 1))

/-- The text of `n.toString()` for a double `n` from 10^21 on: the shortest
digits, a point after the first one, and the decimal exponent. -/
def expString (n : Nat) : String :=
  match expShortest n with
  | none => String.mk (Nat.toDigits 10 n)
  | some (s, e) =>
    let ds := Nat.toDigits 10 s
    let ex := Nat.toDigits 10 (e + ds.length - 1)
    match ds with
    | [] => String.mk (Nat.toDigits 10 n)
    | [c] => String.mk (c :: 'e' :: '+' :: ex)
    | c :: cs => String.mk (c :: '.' :: cs ++ 'e' :: '+' :: ex)

namespace JSNum

/-- The product `x * 60`, rounded to a double as every arithmetic result is. -/
def mul60 : JSNum → JSNum
  | nan => nan
  | int v => int (roundDouble (v * 60))

/-- The test `x > 0`; a comparison with `NaN` is false. -/
def gtZero : JSNum → Bool
  | nan => false
  | int v => decide (0 < v)

/-- The test `0 <= x`; a comparison with `NaN` is false. -/
def geZero : JSNum → Bool
  | nan => false
  | int v => decide (0 ≤ v)

/-- The decrement `x--`: the double nearest to `x - 1`. Up to 2^53 that is
`x - 1` itself; above, `x - 1` is no double and the result is `x` again or the
double below it. On a double the rounded difference is never above `x`; the
minimum keeps it so for an integer that no double holds. -/
def dec : JSNum → JSNum
  | nan => nan
  | int v => int (min v (roundDouble (v - 1)))

/-- The remainder `a % b`: it has the sign of `a`, and is `NaN` when `b` is 0.
The remainder of two doubles is exact. -/
def mod : JSNum → JSNum → JSNum
  | int a, int b => if b = 0 then nan else int (a.tmod b)
  | _, _ => nan

/-- The value of `Math.floor(x / 60)`. Up to 2^53 the rounding of the quotient
does not reach the next integer and the result is the exact floor; above, the
quotient is first rounded to 53 significant bits. -/
def floorDiv60 : JSNum → JSNum
  | nan => nan
  | int v =>
    if v.natAbs ≤ 9007199254740992 then int (v / 60)
    else
      let n := v.natAbs
      let l := bitLog (n / 60)
      if 52 ≤ l then
        let x := roundHalfEven n (60 * 2 ^ (l - 52)) * 2 ^ (l - 52)
        int (if 0 ≤ v then (x : Int) else -(x : Int))
      else
        let k := 52 - l
        let m := roundHalfEven (n * 2 ^ k) 60
        int (if 0 ≤ v then ((m / 2 ^ k : Nat) : Int) else -(((m + 2 ^ k - 1) / 2 ^ k : Nat) : Int))

/-- The quotient `x / 60` as an exact fraction (the record stores the double
nearest to it); `none` is `NaN`. -/
def div60 : JSNum → Option ℚ
  | nan => none
  | int v => some ((v : ℚ) / 60)

/-- The test `a <= b`; a comparison with `NaN` is false. -/
def le : JSNum → JSNum → Bool
  | int a, int b => decide (a ≤ b)
  | _, _ => false

/-- The text of `x.toString()`: all decimal digits below 10^21, digits and
exponent from there on. -/
def toJSString : JSNum → String
  | nan => "NaN"
  | int v =>
    if v.natAbs < 1000000000000000000000 then toString v
    else if 0 ≤ v then expString v.natAbs
    else "-" ++ expString v.natAbs

end JSNum

/-- The text of `str.padStart(2, '0')`. -/
def padStart2 (str : String) : String :=
  String.mk (List.replicate (2 - str.length) '0') ++ str

/-- The three values of `currentSessionType`. -/
inductive SessionType where
  | work
  | shortBreak
  | longBreak
  deriving DecidableEq, Repr

/-- The object `this.settings`: three durations in seconds and the cycle length. -/
structure Settings where
  workDuration : JSNum
  shortBreak : JSNum
  longBreak : JSNum
  sessionsUntilLongBreak : JSNum
  deriving DecidableEq, Repr

/-- A saved preset, one value of the object stored under `pomodoroSessions`
(durations in minutes). -/
structure SessionData where
  name : String
  workDuration : JSNum
  shortBreak : JSNum
  longBreak : JSNum
  sessionsUntilLongBreak : JSNum
  deriving DecidableEq, Repr

/-- The record that `sessionComplete` hands to `saveSessionToHistory`. -/
structure HistoryRecord where
  name : String
  type : SessionType
  plannedDuration : JSNum
  actualDuration : Int
  startTime : Option Int
  endTime : Int
  workDuration : Option ℚ
  shortBreak : Option ℚ
  longBreak : Option ℚ
  deriving DecidableEq, Repr

/-- A message sent with `ipcRenderer.send`. -/
inductive IpcMessage where
  | timerStateChanged (state : String)
  | showNotification (title body : String)
  | sessionTypeChanged (type : SessionType)
  deriving DecidableEq, Repr

/-- The four inputs whose `change` event reloads the settings. -/
inductive SettingsInput where
  | workDuration
  | shortBreak
  | longBreak
  | sessionsUntilLongBreak
  deriving DecidableEq, Repr

/-- The timer object together with the part of its surroundings it acts on. -/
structure PomodoroTimer where
  -- fields of the object
  isRunning : Bool
  isPaused : Bool
  currentSessionType : SessionType
  sessionCount : Nat
  totalSessions : Nat
  timeRemaining : JSNum
  totalTime : JSNum
  timer : Option Nat
  currentSessionName : String
  sessionStartTime : Option Int
  settings : Settings
  -- the page: inputs, buttons and displayed texts
  workDurationInput : JSNum
  shortBreakInput : JSNum
  longBreakInput : JSNum
  sessionsUntilLongBreakInput : JSNum
  sessionNameInput : String
  savedSessionsSelect : String
  startBtnDisabled : Bool
  pauseBtnDisabled : Bool
  timeDisplay : String
  sessionCountDisplay : String
  sessionTypeDisplay : String
  sessionNameDisplay : String
  -- localStorage
  pomodoroHistory : List HistoryRecord
  pomodoroSessions : List (String × SessionData)
  -- messages sent to the main process, oldest first
  sent : List IpcMessage
  -- browser timers: active intervals, the last id handed out, pending timeouts
  intervals : List Nat
  lastTimerId : Nat
  pendingStarts : Nat
  deriving DecidableEq, Repr

/-- The result of `clearInterval(handle)`: the interval with that id, if any, is
removed; `clearInterval(null)` removes nothing. -/
def clearInterval (handle : Option Nat) (active : List Nat) : List Nat :=
  match handle with
  | none => active
  | some id => active.filter (fun i => i != id)

/-- Truthiness of `this.timer`: `null` and `0` are falsy. -/
def handleTruthy : Option Nat → Bool
  | none => false
  | some id => id != 0

/-- The value of `Math.round((end - start) / 1000)`; a `null` start counts as 0
in the subtraction and a tie is rounded up. -/
def roundSeconds (endTime : Int) (startTime : Option Int) : Int :=
  (endTime - startTime.getD 0 + 500) / 1000

namespace PomodoroTimer

/-- The text written to the time display: minutes and seconds of `timeRemaining`,
each padded to two characters. -/
def timeText (timeRemaining : JSNum) : String :=
  let minutes := timeRemaining.floorDiv60
  let seconds := timeRemaining.mod (JSNum.int 60)
  padStart2 minutes.toJSString ++ ":" ++ padStart2 seconds.toJSString

/-- The method `updateDisplay()`: it rewrites the displayed texts from the fields. -/
def updateDisplay (s : PomodoroTimer) : PomodoroTimer :=
  { s with
    timeDisplay := timeText s.timeRemaining
    sessionCountDisplay := toString s.sessionCount
    sessionTypeDisplay :=
      match s.currentSessionType with
      | .work => "Work Session"
      | .shortBreak => "Short Break"
      | .longBreak => "Long Break"
    sessionNameDisplay :=
      if s.currentSessionType = .work then s.currentSessionName else "Take a break!" }

/-- The method `updateTheme()`, reduced to the message it sends. -/
def updateTheme (s : PomodoroTimer) : PomodoroTimer :=
  { s with sent := s.sent ++ [IpcMessage.sessionTypeChanged s.currentSessionType] }

/-- The method `loadSettings()`: it reads the four inputs and restarts the
countdown from the work duration. -/
def loadSettings (s : PomodoroTimer) : PomodoroTimer :=
  let settings : Settings :=
    { workDuration := s.workDurationInput.mul60
      shortBreak := s.shortBreakInput.mul60
      longBreak := s.longBreakInput.mul60
      sessionsUntilLongBreak := s.sessionsUntilLongBreakInput }
  { s with
    settings := settings
    timeRemaining := settings.workDuration
    totalTime := settings.workDuration }

/-- The timer as the constructor leaves it, for a page whose inputs hold the
given values and a `localStorage` with the given history and presets. -/
def new (workDurationInput shortBreakInput longBreakInput sessionsUntilLongBreakInput : JSNum)
    (sessionNameInput : String) (pomodoroHistory : List HistoryRecord)
    (pomodoroSessions : List (String × SessionData)) : PomodoroTimer :=
  let s : PomodoroTimer :=
    { isRunning := false
      isPaused := false
      currentSessionType := .work
      sessionCount := 1
      totalSessions := 0
      timeRemaining := .int 0
      totalTime := .int 0
      timer := none
      currentSessionName := "General Work"
      sessionStartTime := none
      settings :=
        { workDuration := .nan, shortBreak := .nan, longBreak := .nan,
          sessionsUntilLongBreak := .nan }
      workDurationInput := workDurationInput
      shortBreakInput := shortBreakInput
      longBreakInput := longBreakInput
      sessionsUntilLongBreakInput := sessionsUntilLongBreakInput
      sessionNameInput := sessionNameInput
      savedSessionsSelect := ""
      startBtnDisabled := false
      pauseBtnDisabled := true
      timeDisplay := ""
      sessionCountDisplay := ""
      sessionTypeDisplay := ""
      sessionNameDisplay := ""
      pomodoroHistory := pomodoroHistory
      pomodoroSessions := pomodoroSessions
      sent := []
      intervals := []
      lastTimerId := 0
      pendingStarts := 0 }
  let s := updateDisplay (loadSettings s)
  { s with sent := s.sent ++ [IpcMessage.timerStateChanged "stopped"] }

/-- The method `start()`; the interval it creates gets a fresh positive id. -/
def start (now : Int) (s : PomodoroTimer) : PomodoroTimer :=
  if !s.isRunning then
    let id := s.lastTimerId + 1
    { s with
      isRunning := true
      isPaused := false
      startBtnDisabled := true
      pauseBtnDisabled := false
      sessionStartTime := some now
      sent := s.sent ++ [IpcMessage.timerStateChanged "running"]
      timer := some id
      intervals := s.intervals ++ [id]
      lastTimerId := id }
  else s

/-- The method `pause()`. -/
def pause (s : PomodoroTimer) : PomodoroTimer :=
  if s.isRunning && !s.isPaused then
    { s with
      isPaused := true
      startBtnDisabled := false
      pauseBtnDisabled := true
      intervals := clearInterval s.timer s.intervals
      isRunning := false
      sent := s.sent ++ [IpcMessage.timerStateChanged "paused"] }
  else s

/-- The method `reset()`. -/
def reset (s : PomodoroTimer) : PomodoroTimer :=
  let s :=
    { s with
      isRunning := false
      isPaused := false
      startBtnDisabled := false
      pauseBtnDisabled := true
      intervals := if handleTruthy s.timer then clearInterval s.timer s.intervals else s.intervals }
  let s :=
    { s with
      currentSessionType := .work
      sessionCount := 1
      sent := s.sent ++ [IpcMessage.timerStateChanged "stopped"]
      totalSessions := 0 }
  updateTheme (updateDisplay (loadSettings s))

/-- The method `saveSessionToHistory(sessionData)`: push, then keep the last 100. -/
def saveSessionToHistory (sessionData : HistoryRecord) (s : PomodoroTimer) : PomodoroTimer :=
  let history := s.pomodoroHistory ++ [sessionData]
  let history :=
    if history.length > 100 then history.drop (history.length - 100) else history
  { s with pomodoroHistory := history }

/-- The record built at the top of `sessionComplete()`. -/
def completedRecord (now : Int) (s : PomodoroTimer) : HistoryRecord :=
  { name := s.currentSessionName
    type := .work
    plannedDuration := s.totalTime
    actualDuration := roundSeconds now s.sessionStartTime
    startTime := s.sessionStartTime
    endTime := now
    workDuration := s.settings.workDuration.div60
    shortBreak := s.settings.shortBreak.div60
    longBreak := s.settings.longBreak.div60 }

/-- First part of `sessionComplete()`: a completed work phase is saved. -/
def saveCompleted (now : Int) (s : PomodoroTimer) : PomodoroTimer :=
  if s.currentSessionType = .work then saveSessionToHistory (completedRecord now s) s else s

/-- The method `playNotification()`, reduced to the message it sends. -/
def playNotification (s : PomodoroTimer) : PomodoroTimer :=
  let msg :=
    if s.currentSessionType = .work then
      IpcMessage.showNotification "Work Session Complete!" "Time for a break. Great job!"
    else
      IpcMessage.showNotification "Break Time Over!" "Ready to get back to work?"
  { s with sent := s.sent ++ [msg] }

/-- The test `this.totalSessions % this.settings.sessionsUntilLongBreak === 0`. -/
def longBreakDue (totalSessions : Nat) (sessionsUntilLongBreak : JSNum) : Bool :=
  decide ((JSNum.int totalSessions).mod sessionsUntilLongBreak = JSNum.int 0)

/-- The branch of `sessionComplete()` that chooses the next phase. -/
def nextPhase (s : PomodoroTimer) : PomodoroTimer :=
  if s.currentSessionType = .work then
    let s := { s with totalSessions := s.totalSessions + 1 }
    if longBreakDue s.totalSessions s.settings.sessionsUntilLongBreak then
      { s with
        currentSessionType := .longBreak
        timeRemaining := s.settings.longBreak
        totalTime := s.settings.longBreak }
    else
      { s with
        currentSessionType := .shortBreak
        timeRemaining := s.settings.shortBreak
        totalTime := s.settings.shortBreak }
  else
    { s with
      currentSessionType := .work
      sessionCount := s.sessionCount + 1
      timeRemaining := s.settings.workDuration
      totalTime := s.settings.workDuration }

/-- Last statement of `sessionComplete()`: `setTimeout` takes an id and a call of
`start()` is pending. -/
def scheduleStart (s : PomodoroTimer) : PomodoroTimer :=
  { s with lastTimerId := s.lastTimerId + 1, pendingStarts := s.pendingStarts + 1 }

/-- The method `sessionComplete()`. -/
def sessionComplete (now : Int) (s : PomodoroTimer) : PomodoroTimer :=
  scheduleStart (updateTheme (updateDisplay (nextPhase (playNotification (saveCompleted now s)))))

/-- The method `tick()`. -/
def tick (now : Int) (s : PomodoroTimer) : PomodoroTimer :=
  if s.timeRemaining.gtZero then
    updateDisplay { s with timeRemaining := s.timeRemaining.dec }
  else
    sessionComplete now s

/-- The callback scheduled by `sessionComplete()` runs: `start()` is called.
Without a pending callback nothing happens. -/
def delayedStart (now : Int) (s : PomodoroTimer) : PomodoroTimer :=
  if s.pendingStarts = 0 then s
  else start now { s with pendingStarts := s.pendingStarts - 1 }

/-- The user's edit of one of the four inputs. -/
def setInput (field : SettingsInput) (value : JSNum) (s : PomodoroTimer) : PomodoroTimer :=
  match field with
  | .workDuration => { s with workDurationInput := value }
  | .shortBreak => { s with shortBreakInput := value }
  | .longBreak => { s with longBreakInput := value }
  | .sessionsUntilLongBreak => { s with sessionsUntilLongBreakInput := value }

/-- The `change` handler that `bindEvents()` puts on the four inputs. -/
def settingsChanged (s : PomodoroTimer) : PomodoroTimer :=
  if !s.isRunning then updateDisplay (loadSettings s) else s

/-- An input is edited and its `change` handler runs. -/
def changeInput (field : SettingsInput) (value : JSNum) (s : PomodoroTimer) : PomodoroTimer :=
  settingsChanged (setInput field value s)

/-- The `input` handler of the session name field. -/
def sessionNameEdited (value : String) (s : PomodoroTimer) : PomodoroTimer :=
  updateDisplay
    { s with
      sessionNameInput := value
      currentSessionName := if value = "" then "Unnamed Session" else value }

/-- The method `loadSelectedSession()`. -/
def loadSelectedSession (s : PomodoroTimer) : PomodoroTimer :=
  let sessionName := s.savedSessionsSelect
  if sessionName = "" then s
  else
    match s.pomodoroSessions.lookup sessionName with
    | none => s
    | some sessionData =>
      let s :=
        { s with
          sessionNameInput := sessionData.name
          workDurationInput := sessionData.workDuration
          shortBreakInput := sessionData.shortBreak
          longBreakInput := sessionData.longBreak
          sessionsUntilLongBreakInput := sessionData.sessionsUntilLongBreak
          currentSessionName := sessionData.name }
      if !s.isRunning then updateDisplay (loadSettings s) else s

/-- A preset is chosen in the select and its `change` handler runs. -/
def selectSession (sessionName : String) (s : PomodoroTimer) : PomodoroTimer :=
  loadSelectedSession { s with savedSessionsSelect := sessionName }

/-- One second passes: every active interval calls `tick()` once. -/
def secondElapses (now : Int) (s : PomodoroTimer) : PomodoroTimer :=
  s.intervals.foldl (fun st _ => tick now st) s

end PomodoroTimer

/-- The calls that can reach the timer. -/
inductive Op where
  | start (now : Int)
  | pause
  | reset
  | tick (now : Int)
  | sessionComplete (now : Int)
  | delayedStart (now : Int)
  | changeInput (field : SettingsInput) (value : JSNum)
  | sessionNameEdited (value : String)
  | selectSession (sessionName : String)
  deriving DecidableEq, Repr

namespace Op

/-- The effect of one call. -/
def apply : Op → PomodoroTimer → PomodoroTimer
  | start now, s => s.start now
  | pause, s => s.pause
  | reset, s => s.reset
  | tick now, s => s.tick now
  | sessionComplete now, s => s.sessionComplete now
  | delayedStart now, s => s.delayedStart now
  | changeInput field value, s => s.changeInput field value
  | sessionNameEdited value, s => s.sessionNameEdited value
  | selectSession sessionName, s => s.selectSession sessionName

/-- Calls that neither reset the timer nor reload its settings. -/
def keepsCycle : Op → Bool
  | start _ => true
  | pause => true
  | tick _ => true
  | sessionComplete _ => true
  | delayedStart _ => true
  | _ => false

/-- The call runs the phase-completion of a work phase in state `s`. -/
def completesWork (op : Op) (s : PomodoroTimer) : Bool :=
  match op with
  | sessionComplete _ => decide (s.currentSessionType = .work)
  | tick _ => !s.timeRemaining.gtZero && decide (s.currentSessionType = .work)
  | _ => false

end Op

/-- The state after a sequence of calls, first call first. -/
def runOps : List Op → PomodoroTimer → PomodoroTimer
  | [], s => s
  | op :: ops, s => runOps ops (op.apply s)

/-- The number of work phases completed during a sequence of calls. -/
def workCompletions : List Op → PomodoroTimer → Nat
  | [], _ => 0
  | op :: ops, s => (if op.completesWork s then 1 else 0) + workCompletions ops (op.apply s)

/-- The states the timer can be in: the constructed one and what calls make of it. -/
inductive Reachable : PomodoroTimer → Prop where
  | init (w b l k : JSNum) (name : String) (history : List HistoryRecord)
      (sessions : List (String × SessionData)) :
      Reachable (PomodoroTimer.new w b l k name history sessions)
  | step (op : Op) (s : PomodoroTimer) : Reachable s → Reachable (op.apply s)

/-- The timers of the browser agree with the object: a running timer has exactly
one active interval, the one `this.timer` names, and a stopped one has none. -/
def TimerInv (s : PomodoroTimer) : Prop :=
  (s.isRunning = true → ∃ id, id ≠ 0 ∧ s.timer = some id ∧ s.intervals = [id]) ∧
    (s.isRunning = false → s.intervals = [])

/-- The three configured durations are numbers that are not below 0. -/
def Settings.nonneg (c : Settings) : Bool :=
  c.workDuration.geZero && c.shortBreak.geZero && c.longBreak.geZero

/-- The countdown is within its range: `0 <= timeRemaining <= totalTime`. -/
def PomodoroTimer.inRange (s : PomodoroTimer) : Bool :=
  s.timeRemaining.geZero && s.timeRemaining.le s.totalTime

/-- A side effect of `sessionComplete()` that can throw: the write of the history
(`JSON.parse`, `push` or `localStorage.setItem` in `saveSessionToHistory`) or the
message of `playNotification()`. -/
inductive SideEffect where
  | historyWrite
  | notification
  deriving DecidableEq, Repr

/-- The method `sessionComplete()` when the given side effect throws. Nothing in
the method catches, so the exception leaves it at once: `error` holds the state
left behind, `ok` the state of a call that ran to its end. -/
def PomodoroTimer.sessionCompleteWhen (failure : Option SideEffect) (now : Int)
    (s : PomodoroTimer) : Except PomodoroTimer PomodoroTimer :=
  if failure = some .historyWrite ∧ s.currentSessionType = .work then .error s
  else
    let s := s.saveCompleted now
    if failure = some .notification then .error s
    else
      .ok (PomodoroTimer.scheduleStart (PomodoroTimer.updateTheme
        (PomodoroTimer.updateDisplay (PomodoroTimer.nextPhase
          (PomodoroTimer.playNotification s)))))

/-- The method `tick()` when the given side effect throws. -/
def PomodoroTimer.tickWhen (failure : Option SideEffect) (now : Int) (s : PomodoroTimer) :
    Except PomodoroTimer PomodoroTimer :=
  if s.timeRemaining.gtZero then
    .ok (PomodoroTimer.updateDisplay { s with timeRemaining := s.timeRemaining.dec })
  else
    s.sessionCompleteWhen failure now

/-- The state the page is in after a callback, whether it threw or not. -/
def settle : Except PomodoroTimer PomodoroTimer → PomodoroTimer
  | .ok s => s
  | .error s => s

/-- Whether a callback threw. -/
def threw : Except PomodoroTimer PomodoroTimer → Bool
  | .ok _ => false
  | .error _ => true

/-- The listener of `tray-start-timer`. -/
def PomodoroTimer.trayStartTimer (now : Int) (s : PomodoroTimer) : PomodoroTimer :=
  if !s.isRunning then s.start now else s

/-- The listener of `tray-pause-timer`. The class has no method `resume`, so the
call `this.resume()` throws a `TypeError` and the state stays as it is. -/
def PomodoroTimer.trayPauseTimer (s : PomodoroTimer) : Except PomodoroTimer PomodoroTimer :=
  if s.isRunning && !s.isPaused then .ok s.pause
  else if s.isPaused then .error s
  else .ok s

/-- Along a sequence of calls: is there a `pause()` that was called on a running
timer and has not been followed by a `start()` or a `reset()`? The argument
`pending` says so for the calls before the sequence. -/
def pausePending : List Op → PomodoroTimer → Bool → Bool
  | [], _, pending => pending
  | op :: ops, s, pending =>
    pausePending ops (op.apply s)
      (match op with
        | .pause => pending || s.isRunning
        | .start _ => false
        | .reset => false
        | .delayedStart _ => if s.pendingStarts = 0 then pending else false
        | _ => pending)

/-! ## Example states -/

/-- A timer constructed on a page with the default inputs: 25, 5 and 15 minutes,
a long break after every 4th work phase. -/
def defaultTimer : PomodoroTimer :=
  PomodoroTimer.new (.int 25) (.int 5) (.int 15) (.int 4) "" [] []

/-- A record used to fill example histories. -/
def sampleRecord (endTime : Int) : HistoryRecord :=
  { name := "General Work"
    type := .work
    plannedDuration := .int 1500
    actualDuration := 1500
    startTime := some (endTime - 1500000)
    endTime := endTime
    workDuration := some 25
    shortBreak := some 5
    longBreak := some 15 }

/-- A timer whose stored history holds 100 records, numbered 0 to 99. -/
def fullHistoryTimer : PomodoroTimer :=
  { defaultTimer with
    pomodoroHistory := (List.range 100).map (fun (i : Nat) => sampleRecord (Int.ofNat i)) }

/-- A timer constructed with a work phase of one minute. -/
def oneMinuteTimer : PomodoroTimer :=
  PomodoroTimer.new (.int 1) (.int 5) (.int 15) (.int 4) "" [] []

/-- The calls of a started work phase of one minute that counts down to 0. -/
def countdownOps : List Op :=
  Op.start 0 :: List.replicate 60 (Op.tick 0)

/-- The one-minute timer after its work phase has ended and the short break that
followed has been paused. -/
def pausedBreakTimer : PomodoroTimer :=
  runOps (countdownOps ++ [Op.tick 60000, Op.pause]) oneMinuteTimer

/-- A timer constructed on a page whose short break input holds -1. -/
def negativeBreakTimer : PomodoroTimer :=
  PomodoroTimer.new (.int 1) (.int (-1)) (.int 15) (.int 4) "" [] []

/-- The timer with the negative short break, its work phase counted down to 0. -/
def expiredWorkTimer : PomodoroTimer :=
  runOps countdownOps negativeBreakTimer

/-- The default timer, started at time 0. -/
def runningTimer : PomodoroTimer :=
  defaultTimer.start 0

/-- The timer with the negative short break one tick after its work phase ended:
a short break with -60 seconds on the clock. -/
def negativeCountdownTimer : PomodoroTimer :=
  expiredWorkTimer.tick 60000

/-- The running default timer after its first work phase has been completed. -/
def completedOnceTimer : PomodoroTimer :=
  runningTimer.sessionComplete 1500000

/-- The one-minute timer, started, its work phase counted down to 0. -/
def workDoneTimer : PomodoroTimer :=
  runOps countdownOps oneMinuteTimer

/-- A timer constructed with 150119987579017 minutes in the work input: its
countdown, that number times 60, is the double 9007199254741020 above 2^53. -/
def hugeTimer : PomodoroTimer :=
  PomodoroTimer.new (.int 150119987579017) (.int 5) (.int 15) (.int 4) "" [] []

/-- A timer constructed with 2^53 - 1 minutes in the work input. -/
def maxSafeTimer : PomodoroTimer :=
  PomodoroTimer.new (.int 9007199254740991) (.int 5) (.int 15) (.int 4) "" [] []

/-- A timer constructed with 10^21 minutes in the work input. -/
def longDisplayTimer : PomodoroTimer :=
  PomodoroTimer.new (.int 1000000000000000000000) (.int 5) (.int 15) (.int 4) "" [] []

/-- The default timer, started, ten ticks later paused. -/
def pausedTimer : PomodoroTimer :=
  (runOps (List.replicate 10 (Op.tick 0)) runningTimer).pause

/-- One run of the one-minute timer without a pause: `start()` at time 0, the
work phase ends with the tick at 61 s, the short break of 300 s with the tick at
362 s, and the second work phase has counted down to 0. -/
def secondWorkOps : List Op :=
  Op.start 0 :: (List.replicate 60 (Op.tick 0) ++ [Op.tick 61000, Op.delayedStart 62000] ++
    List.replicate 300 (Op.tick 200000) ++ [Op.tick 362000, Op.delayedStart 363000] ++
    List.replicate 60 (Op.tick 400000))

/-- The calls of `secondWorkOps` up to the end of the short break, its last tick
left out. -/
def breakEndOps : List Op :=
  countdownOps ++ [Op.tick 61000, Op.delayedStart 62000] ++
    List.replicate 300 (Op.tick 200000)

/-- The second work phase of the run, counted down to 0. -/
def secondWorkTimer : PomodoroTimer :=
  runOps secondWorkOps oneMinuteTimer

/-! ## Lemmas on lists and numbers -/

theorem drop_push_eq {α : Type} (l : List α) (r : α) (h : 100 < (l ++ [r]).length) :
    (l ++ [r]).drop ((l ++ [r]).length - 100) = l.drop (l.length - 99) ++ [r] := by
  have hl : (l ++ [r]).length = l.length + 1 := by simp
  rw [hl] at h ⊢
  rw [List.drop_append_of_le_length (by omega)]
  have : l.length + 1 - 100 = l.length - 99 := by omega
  rw [this]

theorem drop_small {α : Type} (l : List α) (h : l.length ≤ 99) : l.drop (l.length - 99) = l := by
  have : l.length - 99 = 0 := by omega
  rw [this, List.drop_zero]

/-- An integer below 2^53 in magnitude is a double: rounding leaves it. -/
theorem roundDouble_of_small (v : Int) (h : v.natAbs < 9007199254740992) :
    roundDouble v = v := by
  unfold roundDouble roundDoubleNat
  rw [if_pos h]
  split <;> omega

theorem roundDouble_nonneg (v : Int) (h : 0 ≤ v) : 0 ≤ roundDouble v := by
  unfold roundDouble
  rw [if_pos h]
  exact Int.ofNat_nonneg _

/-- Up to 2^53 the decrement is exact. -/
theorem dec_of_safe (v : Int) (h0 : 0 < v) (h1 : v ≤ 9007199254740992) :
    (JSNum.int v).dec = JSNum.int (v - 1) := by
  have hr : roundDouble (v - 1) = v - 1 := roundDouble_of_small _ (by omega)
  simp only [JSNum.dec, hr]
  congr 1
  omega

/-- Up to 2^53 the product with 60 is exact. -/
theorem mul60_of_safe (m : Int) (h : (m * 60).natAbs ≤ 9007199254740992) :
    (JSNum.int m).mul60 = JSNum.int (m * 60) := by
  have hr : roundDouble (m * 60) = m * 60 := roundDouble_of_small _ (by omega)
  simp only [JSNum.mul60, hr]

/-- What `saveSessionToHistory` stores, as a list expression. -/
theorem stored_eq (s : PomodoroTimer) (r : HistoryRecord) :
    (s.saveSessionToHistory r).pomodoroHistory
      = s.pomodoroHistory.drop (s.pomodoroHistory.length - 99) ++ [r] := by
  unfold PomodoroTimer.saveSessionToHistory
  by_cases h : (s.pomodoroHistory ++ [r]).length > 100
  · simp only [h, if_true]
    exact drop_push_eq _ _ h
  · simp only [h, if_false]
    have hl : (s.pomodoroHistory ++ [r]).length = s.pomodoroHistory.length + 1 := by simp
    rw [drop_small _ (by omega)]

/-! ## The claims -/

/-- C2: `saveSessionToHistory(r)` stores the last `min(100, |h|+1)` elements of
`h ++ [r]` in their order: the stored list is that suffix, it is the last 99
elements of `h` followed by `r`, it has `min(100, |h|+1)` entries and so at most
100, `r` is its last element, and for a history of exactly 100 records only the
oldest one is gone. -/
theorem saveSessionToHistory_keeps_newest (s : PomodoroTimer) (r : HistoryRecord) :
    (s.saveSessionToHistory r).pomodoroHistory
        = (s.pomodoroHistory ++ [r]).drop
            ((s.pomodoroHistory ++ [r]).length - min 100 (s.pomodoroHistory.length + 1)) ∧
      (s.saveSessionToHistory r).pomodoroHistory <:+ s.pomodoroHistory ++ [r] ∧
      (s.saveSessionToHistory r).pomodoroHistory.length
        = min 100 (s.pomodoroHistory.length + 1) ∧
      (s.saveSessionToHistory r).pomodoroHistory.length ≤ 100 ∧
      (s.saveSessionToHistory r).pomodoroHistory.getLast? = some r ∧
      (s.pomodoroHistory.length = 100 →
        (s.saveSessionToHistory r).pomodoroHistory = s.pomodoroHistory.tail ++ [r]) := by
  have hl : (s.pomodoroHistory ++ [r]).length = s.pomodoroHistory.length + 1 := by simp
  have hdrop : (s.saveSessionToHistory r).pomodoroHistory
        = (s.pomodoroHistory ++ [r]).drop
            ((s.pomodoroHistory ++ [r]).length - min 100 (s.pomodoroHistory.length + 1)) := by
    rw [stored_eq, hl, List.drop_append_of_le_length (by omega)]
    have : s.pomodoroHistory.length + 1 - min 100 (s.pomodoroHistory.length + 1)
        = s.pomodoroHistory.length - 99 := by omega
    rw [this]
  refine ⟨hdrop, ?_, ?_, ?_, ?_, ?_⟩
  · rw [hdrop]; exact List.drop_suffix _ _
  · rw [stored_eq]; simp; omega
  · rw [stored_eq]; simp; omega
  · rw [stored_eq]; simp
  · intro h
    rw [stored_eq, h]
    cases hh : s.pomodoroHistory with
    | nil => rw [hh] at h; simp at h
    | cons x xs => simp

/-- Witness of C2: a 101st record pushed onto the 100 stored ones. -/
theorem saveSessionToHistory_keeps_newest_witness :
    fullHistoryTimer.pomodoroHistory.length = 100 ∧
      (fullHistoryTimer.saveSessionToHistory (sampleRecord 100)).pomodoroHistory
        = fullHistoryTimer.pomodoroHistory.tail ++ [sampleRecord 100] :=
  ⟨by simp only [fullHistoryTimer, List.length_map, List.length_range],
    (saveSessionToHistory_keeps_newest fullHistoryTimer (sampleRecord 100)).2.2.2.2.2
      (by simp only [fullHistoryTimer, List.length_map, List.length_range])⟩

/-- The history after `sessionComplete()` is the history after its first part. -/
theorem sessionComplete_history (now : Int) (s : PomodoroTimer) :
    (s.sessionComplete now).pomodoroHistory = (s.saveCompleted now).pomodoroHistory := by
  simp only [PomodoroTimer.sessionComplete, PomodoroTimer.scheduleStart,
    PomodoroTimer.updateTheme, PomodoroTimer.updateDisplay, PomodoroTimer.nextPhase,
    PomodoroTimer.playNotification]
  split <;> [split; skip] <;> rfl

/-- C3: a call of `sessionComplete()` in a work phase appends exactly one record,
the one built from the completed phase (the stored list is the old one with that
record pushed, cut to its newest 100; below the cap it is one longer), and a call
in a short or long break leaves the stored history as it was. -/
theorem sessionComplete_history_append (now : Int) (s : PomodoroTimer) :
    (s.currentSessionType = .work →
      (s.sessionComplete now).pomodoroHistory
          = (s.pomodoroHistory ++ [s.completedRecord now]).drop
              (s.pomodoroHistory.length + 1 - 100) ∧
        (s.pomodoroHistory.length < 100 →
          (s.sessionComplete now).pomodoroHistory
              = s.pomodoroHistory ++ [s.completedRecord now] ∧
            (s.sessionComplete now).pomodoroHistory.length
              = s.pomodoroHistory.length + 1)) ∧
      (s.currentSessionType = .shortBreak ∨ s.currentSessionType = .longBreak →
        (s.sessionComplete now).pomodoroHistory = s.pomodoroHistory) := by
  constructor
  · intro hw
    have h1 : (s.sessionComplete now).pomodoroHistory
        = s.pomodoroHistory.drop (s.pomodoroHistory.length - 99) ++ [s.completedRecord now] := by
      rw [sessionComplete_history, PomodoroTimer.saveCompleted, if_pos hw, stored_eq]
    constructor
    · rw [h1, List.drop_append_of_le_length (by omega)]
      have : s.pomodoroHistory.length + 1 - 100 = s.pomodoroHistory.length - 99 := by omega
      rw [this]
    · intro hlt
      rw [h1, drop_small _ (by omega)]
      simp
  · intro hb
    have hne : s.currentSessionType ≠ .work := by
      rcases hb with h | h <;> rw [h] <;> decide
    rw [sessionComplete_history, PomodoroTimer.saveCompleted, if_neg hne]

/-- Witness of C3: the default timer completes its work phase and stores one
record; the timer paused in its short break completes it and stores none. -/
theorem sessionComplete_history_append_witness :
    defaultTimer.currentSessionType = .work ∧
      defaultTimer.pomodoroHistory.length < 100 ∧
      (defaultTimer.sessionComplete 1500000).pomodoroHistory.length
        = defaultTimer.pomodoroHistory.length + 1 ∧
      pausedBreakTimer.currentSessionType = .shortBreak ∧
      (pausedBreakTimer.sessionComplete 360000).pomodoroHistory
        = pausedBreakTimer.pomodoroHistory :=
  ⟨by decide, by decide,
    (((sessionComplete_history_append 1500000 defaultTimer).1 (by decide)).2 (by decide)).2,
    by decide!,
    (sessionComplete_history_append 360000 pausedBreakTimer).2 (Or.inl (by decide!))⟩

/-- C4, counterexample: the short break input holds -1 and the work phase has
counted down to 0; the next `tick()` takes `timeRemaining` from 0 to -60. -/
theorem tick_below_zero :
    expiredWorkTimer.timeRemaining = JSNum.int 0 ∧
      expiredWorkTimer.timeRemaining.geZero = true ∧
      (expiredWorkTimer.tick 60000).timeRemaining = JSNum.int (-60) ∧
      (expiredWorkTimer.tick 60000).timeRemaining.geZero = false := by
  decide!

/-- The phase-completion writes the countdown that `nextPhase` chooses. -/
theorem sessionComplete_timeRemaining (now : Int) (s : PomodoroTimer) :
    (s.sessionComplete now).timeRemaining
      = if s.currentSessionType = .work then
          if PomodoroTimer.longBreakDue (s.totalSessions + 1) s.settings.sessionsUntilLongBreak
          then s.settings.longBreak else s.settings.shortBreak
        else s.settings.workDuration := by
  simp only [PomodoroTimer.sessionComplete, PomodoroTimer.scheduleStart,
    PomodoroTimer.updateTheme, PomodoroTimer.updateDisplay, PomodoroTimer.nextPhase,
    PomodoroTimer.playNotification, PomodoroTimer.saveCompleted,
    PomodoroTimer.saveSessionToHistory]
  by_cases hw : s.currentSessionType = .work
  · simp only [hw, if_true]
    split <;> rfl
  · simp only [hw, if_false]

theorem dec_geZero (x : JSNum) (h : x.gtZero = true) : x.dec.geZero = true := by
  cases x with
  | nan => simp [JSNum.gtZero] at h
  | int v =>
    simp only [JSNum.gtZero, decide_eq_true_eq] at h
    simp only [JSNum.dec, JSNum.geZero, decide_eq_true_eq]
    have hr := roundDouble_nonneg (v - 1) (by omega)
    omega

/-- C4, amended: in every state with `timeRemaining > 0`, and in every state with
`timeRemaining >= 0` whose three configured durations are not below 0, the
remaining time after `tick()` is not below 0. -/
theorem tick_not_below_zero (now : Int) (s : PomodoroTimer) :
    (s.timeRemaining.gtZero = true → (s.tick now).timeRemaining.geZero = true) ∧
      (s.timeRemaining.geZero = true → s.settings.workDuration.geZero = true →
        s.settings.shortBreak.geZero = true → s.settings.longBreak.geZero = true →
        (s.tick now).timeRemaining.geZero = true) := by
  have hpos : s.timeRemaining.gtZero = true → (s.tick now).timeRemaining.geZero = true := by
    intro h
    have h1 : (s.tick now).timeRemaining = s.timeRemaining.dec := by
      simp [PomodoroTimer.tick, h, PomodoroTimer.updateDisplay]
    rw [h1]
    exact dec_geZero _ h
  refine ⟨hpos, ?_⟩
  intro _ hw hb hl
  by_cases h : s.timeRemaining.gtZero = true
  · exact hpos h
  · have h1 : (s.tick now).timeRemaining = (s.sessionComplete now).timeRemaining := by
      simp [PomodoroTimer.tick, h]
    rw [h1, sessionComplete_timeRemaining]
    split
    · split <;> assumption
    · assumption

/-- Witness of C4 (amended): the one-minute timer at the end of its work phase,
durations 60, 300 and 900: the tick at 0 completes the phase and loads 300; and
a tick of the default timer with 1500 seconds left. -/
theorem tick_not_below_zero_witness :
    workDoneTimer.timeRemaining = JSNum.int 0 ∧
      workDoneTimer.settings
        = { workDuration := .int 60, shortBreak := .int 300, longBreak := .int 900,
            sessionsUntilLongBreak := .int 4 } ∧
      (workDoneTimer.tick 61000).timeRemaining.geZero = true ∧
      (defaultTimer.tick 0).timeRemaining.geZero = true :=
  ⟨by decide!, by decide!,
    (tick_not_below_zero 61000 workDoneTimer).2 (by decide!) (by decide!) (by decide!)
      (by decide!),
    (tick_not_below_zero 0 defaultTimer).1 (by decide)⟩

/-- C5, counterexample: a work duration of 0 entered on the stopped default
timer is taken over; settings and countdown change. -/
theorem zero_work_duration_accepted :
    defaultTimer.isRunning = false ∧
      defaultTimer.settings.workDuration = JSNum.int 1500 ∧
      defaultTimer.timeRemaining = JSNum.int 1500 ∧
      (defaultTimer.changeInput .workDuration (.int 0)).settings.workDuration = JSNum.int 0 ∧
      (defaultTimer.changeInput .workDuration (.int 0)).timeRemaining = JSNum.int 0 ∧
      (defaultTimer.changeInput .workDuration (.int 0)).totalTime = JSNum.int 0 := by
  decide

/-- C5, amended: `loadSettings()` checks nothing and cannot fail. On a timer that
is not running, a change of an input is taken over whatever the value is (0, a
number below 0, no number at all): a duration input holding an integer m of
magnitude up to 150119987579016 becomes the duration m * 60, the cycle length
becomes the value itself, in the `work` phase `timeRemaining` and `totalTime`
become the new work duration, and phase and counters stay as they were. -/
theorem changeInput_takes_any_value (field : SettingsInput) (value : JSNum)
    (s : PomodoroTimer) (h : s.isRunning = false) :
    (∀ m : Int, value = JSNum.int m → -150119987579016 ≤ m → m ≤ 150119987579016 →
        (s.changeInput .workDuration value).settings.workDuration = JSNum.int (m * 60) ∧
          (s.changeInput .shortBreak value).settings.shortBreak = JSNum.int (m * 60) ∧
          (s.changeInput .longBreak value).settings.longBreak = JSNum.int (m * 60)) ∧
      (s.changeInput .sessionsUntilLongBreak value).settings.sessionsUntilLongBreak = value ∧
      (s.currentSessionType = .work →
        (s.changeInput field value).timeRemaining
            = (s.changeInput field value).settings.workDuration ∧
          (s.changeInput field value).totalTime
            = (s.changeInput field value).settings.workDuration) ∧
      (s.changeInput field value).currentSessionType = s.currentSessionType ∧
      (s.changeInput field value).totalSessions = s.totalSessions ∧
      (s.changeInput field value).sessionCount = s.sessionCount ∧
      (s.changeInput field value).isRunning = false := by
  have hr : ∀ f, (s.setInput f value).isRunning = false := by
    intro f; cases f <;> simpa [PomodoroTimer.setInput] using h
  have hf : ∀ f, s.changeInput f value
      = PomodoroTimer.updateDisplay (PomodoroTimer.loadSettings (s.setInput f value)) := by
    intro f; simp [PomodoroTimer.changeInput, PomodoroTimer.settingsChanged, hr f]
  refine ⟨fun m hm hlo hhi => ?_, ?_, fun _ => ?_, ?_, ?_, ?_, ?_⟩
  · have hsafe : (JSNum.int m).mul60 = JSNum.int (m * 60) := mul60_of_safe m (by omega)
    rw [hf .workDuration, hf .shortBreak, hf .longBreak, hm]
    exact ⟨hsafe, hsafe, hsafe⟩
  · rw [hf .sessionsUntilLongBreak]
    rfl
  · rw [hf field]
    exact ⟨rfl, rfl⟩
  all_goals
    rw [hf field]
    cases field <;>
      simp [PomodoroTimer.updateDisplay, PomodoroTimer.loadSettings, PomodoroTimer.setInput, h]

/-- Witness of C5 (amended): a short break of -1 minute and a cycle length of 0
entered on the default timer, which is stopped and in its work phase. -/
theorem changeInput_takes_any_value_witness :
    defaultTimer.isRunning = false ∧
      (defaultTimer.changeInput .shortBreak (.int (-1))).settings.shortBreak
        = JSNum.int (-1 * 60) ∧
      (defaultTimer.changeInput .sessionsUntilLongBreak (.int 0)).settings.sessionsUntilLongBreak
        = JSNum.int 0 ∧
      (defaultTimer.changeInput .workDuration (.int 0)).timeRemaining
        = (defaultTimer.changeInput .workDuration (.int 0)).settings.workDuration :=
  ⟨by decide,
    ((changeInput_takes_any_value .shortBreak (.int (-1)) defaultTimer (by decide)).1 (-1) rfl
      (by decide) (by decide)).2.1,
    (changeInput_takes_any_value .sessionsUntilLongBreak (.int 0) defaultTimer
      (by decide)).2.1,
    ((changeInput_takes_any_value .workDuration (.int 0) defaultTimer (by decide)).2.2.1
      (by decide)).1⟩

/-- C6, at the failing input: the one-minute timer is paused in its short break
(300 seconds on the clock) and the short break input is set to 10 minutes. The
phase stays `shortBreak` and the new short break is 600 seconds, but
`timeRemaining` and `totalTime` become 60, the work duration. -/
theorem changeInput_in_break_loads_work_duration :
    pausedBreakTimer.isRunning = false ∧
      pausedBreakTimer.currentSessionType = .shortBreak ∧
      pausedBreakTimer.timeRemaining = JSNum.int 300 ∧
      (pausedBreakTimer.changeInput .shortBreak (.int 10)).currentSessionType = .shortBreak ∧
      (pausedBreakTimer.changeInput .shortBreak (.int 10)).settings.shortBreak
        = JSNum.int 600 ∧
      (pausedBreakTimer.changeInput .shortBreak (.int 10)).settings.workDuration
        = JSNum.int 60 ∧
      (pausedBreakTimer.changeInput .shortBreak (.int 10)).timeRemaining = JSNum.int 60 ∧
      (pausedBreakTimer.changeInput .shortBreak (.int 10)).totalTime = JSNum.int 60 := by
  decide!

/-- C7: while `isRunning` is true, neither an edit of one of the four inputs nor
the choice of a saved preset changes `settings`, `timeRemaining` or `totalTime`
(and the timer keeps running). -/
theorem settings_kept_while_running (s : PomodoroTimer) (h : s.isRunning = true)
    (field : SettingsInput) (value : JSNum) (sessionName : String) :
    ((s.changeInput field value).settings = s.settings ∧
        (s.changeInput field value).timeRemaining = s.timeRemaining ∧
        (s.changeInput field value).totalTime = s.totalTime ∧
        (s.changeInput field value).isRunning = true) ∧
      ((s.selectSession sessionName).settings = s.settings ∧
        (s.selectSession sessionName).timeRemaining = s.timeRemaining ∧
        (s.selectSession sessionName).totalTime = s.totalTime ∧
        (s.selectSession sessionName).isRunning = true) := by
  constructor
  · cases field <;>
      simp [PomodoroTimer.changeInput, PomodoroTimer.settingsChanged,
        PomodoroTimer.setInput, h]
  · simp only [PomodoroTimer.selectSession, PomodoroTimer.loadSelectedSession]
    split
    · simp [h]
    · split <;> simp [h]

/-- Witness of C7: the running default timer; the work input is set to 50 and a
preset is chosen. -/
theorem settings_kept_while_running_witness :
    runningTimer.isRunning = true ∧
      (runningTimer.changeInput .workDuration (.int 50)).settings = runningTimer.settings ∧
      (runningTimer.changeInput .workDuration (.int 50)).timeRemaining = JSNum.int 1500 ∧
      (runningTimer.selectSession "Deep work").timeRemaining = JSNum.int 1500 :=
  ⟨by decide,
    (settings_kept_while_running runningTimer (by decide) .workDuration (.int 50)
      "Deep work").1.1,
    (settings_kept_while_running runningTimer (by decide) .workDuration (.int 50)
      "Deep work").1.2.1.trans (by decide),
    (settings_kept_while_running runningTimer (by decide) .workDuration (.int 50)
      "Deep work").2.2.1.trans (by decide)⟩

/-- C8: on a running timer, `pause()` followed by `start()` gives a running timer
with the `timeRemaining`, `totalTime`, `currentSessionType`, `sessionCount` and
`totalSessions` it had at the pause; when the timer was not marked paused, the
pause in between does stop it without touching the countdown, and the restart
leaves the new interval active. -/
theorem pause_then_start_resumes (now : Int) (s : PomodoroTimer) (h : s.isRunning = true) :
    ((s.pause).start now).isRunning = true ∧
      ((s.pause).start now).timeRemaining = s.timeRemaining ∧
      ((s.pause).start now).totalTime = s.totalTime ∧
      ((s.pause).start now).currentSessionType = s.currentSessionType ∧
      ((s.pause).start now).sessionCount = s.sessionCount ∧
      ((s.pause).start now).totalSessions = s.totalSessions ∧
      (s.isPaused = false →
        (s.pause).isRunning = false ∧ (s.pause).timeRemaining = s.timeRemaining ∧
          ∃ id, ((s.pause).start now).timer = some id ∧
            id ∈ ((s.pause).start now).intervals) := by
  cases hp : s.isPaused <;> simp [PomodoroTimer.pause, PomodoroTimer.start, h, hp]

/-- Witness of C8: the default timer is started, ticks 10 times, is paused and
started again: 1490 seconds remain. -/
theorem pause_then_start_resumes_witness :
    (runOps (List.replicate 10 (Op.tick 0)) runningTimer).isRunning = true ∧
      (((runOps (List.replicate 10 (Op.tick 0)) runningTimer).pause).start 20000).timeRemaining
        = JSNum.int 1490 :=
  ⟨by decide,
    (pause_then_start_resumes 20000 (runOps (List.replicate 10 (Op.tick 0)) runningTimer)
      (by decide)).2.1.trans (by decide)⟩

/-! ## One interval at a time -/

/-- The phase-completion does not touch the running flag, the handle or the
browser's intervals. -/
theorem sessionComplete_frame (now : Int) (s : PomodoroTimer) :
    (s.sessionComplete now).isRunning = s.isRunning ∧
      (s.sessionComplete now).timer = s.timer ∧
      (s.sessionComplete now).intervals = s.intervals := by
  simp only [PomodoroTimer.sessionComplete, PomodoroTimer.scheduleStart,
    PomodoroTimer.updateTheme, PomodoroTimer.updateDisplay, PomodoroTimer.nextPhase,
    PomodoroTimer.playNotification, PomodoroTimer.saveCompleted,
    PomodoroTimer.saveSessionToHistory]
  by_cases hw : s.currentSessionType = .work
  · simp only [hw, if_true]
    split <;> exact ⟨rfl, rfl, rfl⟩
  · simp [hw]

theorem tick_frame (now : Int) (s : PomodoroTimer) :
    (s.tick now).isRunning = s.isRunning ∧ (s.tick now).timer = s.timer ∧
      (s.tick now).intervals = s.intervals := by
  unfold PomodoroTimer.tick
  split
  · exact ⟨rfl, rfl, rfl⟩
  · exact sessionComplete_frame now s

theorem changeInput_frame (field : SettingsInput) (value : JSNum) (s : PomodoroTimer) :
    (s.changeInput field value).isRunning = s.isRunning ∧
      (s.changeInput field value).timer = s.timer ∧
      (s.changeInput field value).intervals = s.intervals := by
  cases field <;> cases h : s.isRunning <;>
    simp [PomodoroTimer.changeInput, PomodoroTimer.settingsChanged, PomodoroTimer.setInput,
      PomodoroTimer.updateDisplay, PomodoroTimer.loadSettings, h]

theorem selectSession_frame (sessionName : String) (s : PomodoroTimer) :
    (s.selectSession sessionName).isRunning = s.isRunning ∧
      (s.selectSession sessionName).timer = s.timer ∧
      (s.selectSession sessionName).intervals = s.intervals := by
  simp only [PomodoroTimer.selectSession, PomodoroTimer.loadSelectedSession]
  split
  · exact ⟨rfl, rfl, rfl⟩
  · split
    · exact ⟨rfl, rfl, rfl⟩
    · cases h : s.isRunning <;>
        simp [PomodoroTimer.updateDisplay, PomodoroTimer.loadSettings, h]

theorem timerInv_of_frame {s t : PomodoroTimer} (hs : TimerInv s)
    (h : t.isRunning = s.isRunning ∧ t.timer = s.timer ∧ t.intervals = s.intervals) :
    TimerInv t := by
  unfold TimerInv at hs ⊢
  rw [h.1, h.2.1, h.2.2]
  exact hs

theorem timerInv_start (now : Int) (s : PomodoroTimer) (hs : TimerInv s) :
    TimerInv (s.start now) := by
  unfold PomodoroTimer.start
  cases h : s.isRunning
  · have hi : s.intervals = [] := hs.2 h
    simp [TimerInv, hi]
  · simpa [h] using hs

theorem timerInv_pause (s : PomodoroTimer) (hs : TimerInv s) : TimerInv s.pause := by
  unfold PomodoroTimer.pause
  split
  · next hc =>
    simp only [Bool.and_eq_true] at hc
    obtain ⟨id, _, ht, hi⟩ := hs.1 hc.1
    simp [TimerInv, ht, hi, clearInterval]
  · exact hs

theorem reset_intervals (s : PomodoroTimer) :
    s.reset.isRunning = false ∧
      s.reset.intervals
        = if handleTruthy s.timer then clearInterval s.timer s.intervals else s.intervals := by
  simp [PomodoroTimer.reset, PomodoroTimer.updateTheme, PomodoroTimer.updateDisplay,
    PomodoroTimer.loadSettings]

theorem timerInv_reset (s : PomodoroTimer) (hs : TimerInv s) : TimerInv s.reset := by
  obtain ⟨hr, hi⟩ := reset_intervals s
  refine ⟨fun h => by rw [hr] at h; exact absurd h (by decide), fun _ => ?_⟩
  rw [hi]
  cases h : s.isRunning
  · rw [hs.2 h]
    cases s.timer <;> simp [clearInterval]
  · obtain ⟨id, hid, ht, hl⟩ := hs.1 h
    simp [ht, hl, handleTruthy, clearInterval, hid]

theorem timerInv_new (w b l k : JSNum) (name : String) (history : List HistoryRecord)
    (sessions : List (String × SessionData)) :
    TimerInv (PomodoroTimer.new w b l k name history sessions) := by
  simp [TimerInv, PomodoroTimer.new, PomodoroTimer.updateDisplay, PomodoroTimer.loadSettings]

theorem timerInv_apply (op : Op) (s : PomodoroTimer) (hs : TimerInv s) :
    TimerInv (op.apply s) := by
  cases op with
  | start now => exact timerInv_start now s hs
  | pause => exact timerInv_pause s hs
  | reset => exact timerInv_reset s hs
  | tick now => exact timerInv_of_frame hs (tick_frame now s)
  | sessionComplete now => exact timerInv_of_frame hs (sessionComplete_frame now s)
  | delayedStart now =>
    simp only [Op.apply, PomodoroTimer.delayedStart]
    split
    · exact hs
    · exact timerInv_start now _ hs
  | changeInput field value => exact timerInv_of_frame hs (changeInput_frame field value s)
  | sessionNameEdited value => exact timerInv_of_frame hs ⟨rfl, rfl, rfl⟩
  | selectSession sessionName => exact timerInv_of_frame hs (selectSession_frame sessionName s)

theorem reachable_timerInv (s : PomodoroTimer) (h : Reachable s) : TimerInv s := by
  induction h with
  | init w b l k name history sessions => exact timerInv_new w b l k name history sessions
  | step op s _ ih => exact timerInv_apply op s ih

/-- C9: after `reset()` the timer is not running, the phase is `work`,
`totalSessions` is 0, `sessionCount` is 1, `timeRemaining` and `totalTime` are the
configured work duration (the work input times 60, as the settings now hold it),
the session name is the one before, and the interval is cleared: the interval
that `this.timer` names is no longer active, and none at all is left when it was
the only one, as it is in every reachable state. -/
theorem reset_spec (s : PomodoroTimer) :
    s.reset.isRunning = false ∧
      s.reset.currentSessionType = .work ∧
      s.reset.totalSessions = 0 ∧
      s.reset.sessionCount = 1 ∧
      s.reset.timeRemaining = s.reset.settings.workDuration ∧
      s.reset.totalTime = s.reset.settings.workDuration ∧
      s.reset.settings.workDuration = s.workDurationInput.mul60 ∧
      s.reset.currentSessionName = s.currentSessionName ∧
      (∀ id, s.timer = some id → id ≠ 0 → id ∉ s.reset.intervals) ∧
      (Reachable s → s.reset.intervals = []) := by
  refine ⟨?_, ?_, ?_, ?_, ?_, ?_, ?_, ?_, ?_, ?_⟩
  · exact (reset_intervals s).1
  · simp [PomodoroTimer.reset, PomodoroTimer.updateTheme, PomodoroTimer.updateDisplay,
      PomodoroTimer.loadSettings]
  · simp [PomodoroTimer.reset, PomodoroTimer.updateTheme, PomodoroTimer.updateDisplay,
      PomodoroTimer.loadSettings]
  · simp [PomodoroTimer.reset, PomodoroTimer.updateTheme, PomodoroTimer.updateDisplay,
      PomodoroTimer.loadSettings]
  · simp [PomodoroTimer.reset, PomodoroTimer.updateTheme, PomodoroTimer.updateDisplay,
      PomodoroTimer.loadSettings]
  · simp [PomodoroTimer.reset, PomodoroTimer.updateTheme, PomodoroTimer.updateDisplay,
      PomodoroTimer.loadSettings]
  · simp [PomodoroTimer.reset, PomodoroTimer.updateTheme, PomodoroTimer.updateDisplay,
      PomodoroTimer.loadSettings]
  · simp [PomodoroTimer.reset, PomodoroTimer.updateTheme, PomodoroTimer.updateDisplay,
      PomodoroTimer.loadSettings]
  · intro id ht hid
    rw [(reset_intervals s).2, ht]
    simp [handleTruthy, hid, clearInterval]
  · intro hr
    exact (timerInv_reset s (reachable_timerInv s hr)).2 (reset_intervals s).1

/-- Witness of C9: the running default timer is reset; its interval 1 is gone. -/
theorem reset_spec_witness :
    runningTimer.timer = some 1 ∧ runningTimer.intervals = [1] ∧
      1 ∉ runningTimer.reset.intervals ∧ runningTimer.reset.intervals = [] :=
  ⟨by decide, by decide,
    (reset_spec runningTimer).2.2.2.2.2.2.2.2.1 1 (by decide) (by decide),
    (reset_spec runningTimer).2.2.2.2.2.2.2.2.2
      (Reachable.step (Op.start 0) _ (Reachable.init _ _ _ _ _ _ _))⟩

/-- C10: in every state reachable from the constructor by calls of `start()`,
`pause()`, `reset()`, `tick()`, `sessionComplete()`, the delayed `start()` and the
input handlers, at most one interval is active, one is active exactly when
`isRunning` is true, and it is the one `this.timer` names; so when a second
passes `tick()` runs once on a running timer and not at all on a stopped one, and
an expired countdown is completed by one call of `sessionComplete()`. -/
theorem one_interval_iff_running (s : PomodoroTimer) (h : Reachable s) (now : Int) :
    s.intervals.length ≤ 1 ∧
      (s.intervals.length = 1 ↔ s.isRunning = true) ∧
      (s.isRunning = true → ∃ id, s.timer = some id ∧ s.intervals = [id]) ∧
      s.secondElapses now = (if s.isRunning = true then s.tick now else s) ∧
      (s.isRunning = true → s.timeRemaining.gtZero = false →
        s.secondElapses now = s.sessionComplete now) := by
  have hinv := reachable_timerInv s h
  cases hr : s.isRunning
  · have hi := hinv.2 hr
    simp [hi, PomodoroTimer.secondElapses]
  · obtain ⟨id, _, ht, hi⟩ := hinv.1 hr
    refine ⟨by simp [hi], by simp [hi], fun _ => ⟨id, ht, hi⟩, ?_, ?_⟩
    · simp [PomodoroTimer.secondElapses, hi]
    · intro _ hz
      simp [PomodoroTimer.secondElapses, hi, PomodoroTimer.tick, hz]

/-- Witness of C10: the default timer after `start()`. -/
theorem one_interval_iff_running_witness :
    Reachable runningTimer ∧ runningTimer.intervals.length ≤ 1 ∧
      (runningTimer.intervals.length = 1 ↔ runningTimer.isRunning = true) :=
  ⟨Reachable.step (Op.start 0) _ (Reachable.init _ _ _ _ _ _ _),
    (one_interval_iff_running runningTimer
      (Reachable.step (Op.start 0) _ (Reachable.init _ _ _ _ _ _ _)) 0).1,
    (one_interval_iff_running runningTimer
      (Reachable.step (Op.start 0) _ (Reachable.init _ _ _ _ _ _ _)) 0).2.1⟩

/-! ## The long break cycle -/

theorem longBreakDue_nat (n k : Nat) (hk : 1 ≤ k) :
    PomodoroTimer.longBreakDue n (JSNum.int k) = decide (n % k = 0) := by
  have hk0 : (k : Int) ≠ 0 := by omega
  simp only [PomodoroTimer.longBreakDue, JSNum.mod, hk0, if_false, ← Int.ofNat_tmod]
  have hiff : JSNum.int ((n % k : Nat) : Int) = JSNum.int 0 ↔ n % k = 0 := by
    constructor
    · intro h
      injection h with h
      exact_mod_cast h
    · intro h
      rw [h]
      rfl
  exact decide_eq_decide.mpr hiff

/-- What the phase-completion does to phase, counter and settings. -/
theorem sessionComplete_cycle (now : Int) (s : PomodoroTimer) :
    (s.sessionComplete now).settings = s.settings ∧
      (s.sessionComplete now).totalSessions
        = s.totalSessions + (if s.currentSessionType = .work then 1 else 0) ∧
      (s.sessionComplete now).currentSessionType
        = if s.currentSessionType = .work then
            if PomodoroTimer.longBreakDue (s.totalSessions + 1) s.settings.sessionsUntilLongBreak
            then .longBreak else .shortBreak
          else .work := by
  simp only [PomodoroTimer.sessionComplete, PomodoroTimer.scheduleStart,
    PomodoroTimer.updateTheme, PomodoroTimer.updateDisplay, PomodoroTimer.nextPhase,
    PomodoroTimer.playNotification, PomodoroTimer.saveCompleted,
    PomodoroTimer.saveSessionToHistory]
  by_cases hw : s.currentSessionType = .work
  · simp only [hw, if_true]
    split <;> exact ⟨rfl, rfl, rfl⟩
  · simp [hw]

theorem keepsCycle_apply (op : Op) (s : PomodoroTimer) (h : op.keepsCycle = true) :
    (op.apply s).settings = s.settings ∧
      (op.apply s).totalSessions
        = s.totalSessions + (if op.completesWork s = true then 1 else 0) := by
  cases op with
  | start now => simp only [Op.apply, PomodoroTimer.start]; split <;> simp [Op.completesWork]
  | pause => simp only [Op.apply, PomodoroTimer.pause]; split <;> simp [Op.completesWork]
  | reset => simp [Op.keepsCycle] at h
  | tick now =>
    simp only [Op.apply, PomodoroTimer.tick, Op.completesWork]
    by_cases hz : s.timeRemaining.gtZero = true
    · simp [hz, PomodoroTimer.updateDisplay]
    · have := sessionComplete_cycle now s
      simp [hz, this.1, this.2.1]
  | sessionComplete now =>
    have := sessionComplete_cycle now s
    simp [Op.apply, Op.completesWork, this.1, this.2.1]
  | delayedStart now =>
    simp only [Op.apply, PomodoroTimer.delayedStart, PomodoroTimer.start]
    split
    · simp [Op.completesWork]
    · split <;> simp [Op.completesWork]
  | changeInput field value => simp [Op.keepsCycle] at h
  | sessionNameEdited value => simp [Op.keepsCycle] at h
  | selectSession sessionName => simp [Op.keepsCycle] at h

theorem keepsCycle_runOps (ops : List Op) :
    ∀ s : PomodoroTimer, (∀ op ∈ ops, op.keepsCycle = true) →
      (runOps ops s).settings = s.settings ∧
        (runOps ops s).totalSessions = s.totalSessions + workCompletions ops s := by
  induction ops with
  | nil => intro s _; simp [runOps, workCompletions]
  | cons op ops ih =>
    intro s h
    have h1 := keepsCycle_apply op s (h op (List.mem_cons_self _ _))
    have h2 := ih (op.apply s) (fun o ho => h o (List.mem_cons_of_mem _ ho))
    simp only [runOps, workCompletions]
    rw [h2.1, h2.2, h1.1, h1.2]
    exact ⟨rfl, by omega⟩

/-- C1: with `sessionsUntilLongBreak = k >= 1`, start from a timer with
`totalSessions = 0` and let any calls of `start()`, `pause()`, `tick()`,
`sessionComplete()` and the delayed `start()` follow. If they completed n - 1 work
phases and the phase is `work` again, the next `sessionComplete()`, the n-th one
of a work phase, selects `longBreak` when n mod k = 0 and `shortBreak` otherwise. -/
theorem long_break_every_kth (k : Nat) (hk : 1 ≤ k) (s0 : PomodoroTimer)
    (h0 : s0.totalSessions = 0)
    (hset : s0.settings.sessionsUntilLongBreak = JSNum.int k)
    (ops : List Op) (hops : ∀ op ∈ ops, op.keepsCycle = true) (now : Int)
    (hw : (runOps ops s0).currentSessionType = .work) :
    ((runOps ops s0).sessionComplete now).currentSessionType
      = if (workCompletions ops s0 + 1) % k = 0 then .longBreak else .shortBreak := by
  have hrun := keepsCycle_runOps ops s0 hops
  rw [(sessionComplete_cycle now (runOps ops s0)).2.2, if_pos hw, hrun.1, hrun.2, hset, h0,
    longBreakDue_nat _ _ hk, Nat.zero_add]
  by_cases h : (workCompletions ops s0 + 1) % k = 0 <;> simp [h]

/-- Witness of C1: 1500, 300 and 900 seconds, k = 4; after three work phases and
three short breaks the 4th work completion selects the long break. -/
theorem long_break_every_kth_witness :
    defaultTimer.settings
        = { workDuration := .int 1500, shortBreak := .int 300, longBreak := .int 900,
            sessionsUntilLongBreak := .int 4 } ∧
      workCompletions (List.replicate 6 (Op.sessionComplete 0)) defaultTimer = 3 ∧
      ((runOps (List.replicate 6 (Op.sessionComplete 0)) defaultTimer).sessionComplete
        0).currentSessionType = .longBreak :=
  ⟨by decide, by decide,
    (long_break_every_kth 4 (by decide) defaultTimer (by decide) (by decide)
      (List.replicate 6 (Op.sessionComplete 0)) (by decide) 0 (by decide)).trans
      (by decide)⟩

/-! ## The range of the countdown -/

theorem sessionComplete_totalTime (now : Int) (s : PomodoroTimer) :
    (s.sessionComplete now).totalTime = (s.sessionComplete now).timeRemaining := by
  simp only [PomodoroTimer.sessionComplete, PomodoroTimer.scheduleStart,
    PomodoroTimer.updateTheme, PomodoroTimer.updateDisplay, PomodoroTimer.nextPhase,
    PomodoroTimer.playNotification, PomodoroTimer.saveCompleted,
    PomodoroTimer.saveSessionToHistory]
  by_cases hw : s.currentSessionType = .work
  · simp only [hw, if_true]
    split <;> rfl
  · simp only [hw, if_false]

theorem le_self_of_geZero (x : JSNum) (h : x.geZero = true) : x.le x = true := by
  cases x with
  | nan => simp [JSNum.geZero] at h
  | int v => simp [JSNum.le]

theorem inRange_of_eq (t : PomodoroTimer) (x : JSNum) (h1 : t.timeRemaining = x)
    (h2 : t.totalTime = x) (hx : x.geZero = true) : t.inRange = true := by
  simp [PomodoroTimer.inRange, h1, h2, hx, le_self_of_geZero x hx]

theorem inRange_of_frame {s t : PomodoroTimer} (h1 : t.timeRemaining = s.timeRemaining)
    (h2 : t.totalTime = s.totalTime) (hs : s.inRange = true) : t.inRange = true := by
  simpa [PomodoroTimer.inRange, h1, h2] using hs

theorem nonneg_parts (c : Settings) (h : c.nonneg = true) :
    c.workDuration.geZero = true ∧ c.shortBreak.geZero = true ∧ c.longBreak.geZero = true := by
  simpa [Settings.nonneg, and_assoc] using h

theorem inRange_dec (s t : PomodoroTimer) (hpos : s.timeRemaining.gtZero = true)
    (h1 : t.timeRemaining = s.timeRemaining.dec) (h2 : t.totalTime = s.totalTime)
    (hs : s.inRange = true) : t.inRange = true := by
  simp only [PomodoroTimer.inRange, Bool.and_eq_true] at hs ⊢
  rw [h1, h2]
  refine ⟨dec_geZero _ hpos, ?_⟩
  cases htr : s.timeRemaining with
  | nan => rw [htr] at hpos; simp [JSNum.gtZero] at hpos
  | int a =>
    cases htt : s.totalTime with
    | nan => rw [htr, htt] at hs; simp [JSNum.le] at hs
    | int b =>
      rw [htr, htt] at hs
      simp only [JSNum.le, decide_eq_true_eq] at hs
      simp only [JSNum.dec, JSNum.le, decide_eq_true_eq]
      omega

theorem sessionComplete_inRange (now : Int) (s : PomodoroTimer)
    (hc : (s.sessionComplete now).settings.nonneg = true) :
    (s.sessionComplete now).inRange = true := by
  rw [(sessionComplete_cycle now s).1] at hc
  obtain ⟨hw, hb, hl⟩ := nonneg_parts _ hc
  refine inRange_of_eq _ _ rfl (sessionComplete_totalTime now s) ?_
  rw [sessionComplete_timeRemaining]
  split
  · split <;> assumption
  · assumption

theorem loadSettings_inRange (s : PomodoroTimer)
    (hc : (s.loadSettings.updateDisplay).settings.nonneg = true) :
    (s.loadSettings.updateDisplay).inRange = true :=
  inRange_of_eq _ _ rfl rfl (nonneg_parts _ hc).1

theorem start_inRange (now : Int) (s : PomodoroTimer) (hs : s.inRange = true) :
    (s.start now).inRange = true := by
  unfold PomodoroTimer.start
  split
  · exact inRange_of_frame rfl rfl hs
  · exact hs

theorem selectSession_cases (sessionName : String) (s : PomodoroTimer) :
    ((s.selectSession sessionName).timeRemaining = s.timeRemaining ∧
        (s.selectSession sessionName).totalTime = s.totalTime) ∨
      ∃ t : PomodoroTimer, s.selectSession sessionName = t.loadSettings.updateDisplay := by
  simp only [PomodoroTimer.selectSession, PomodoroTimer.loadSelectedSession]
  split
  · exact Or.inl ⟨rfl, rfl⟩
  · split
    · exact Or.inl ⟨rfl, rfl⟩
    · by_cases hr : s.isRunning = true
      · exact Or.inl (by simp [hr])
      · simp only [Bool.not_eq_true] at hr
        simp only [hr, Bool.not_false, if_true]
        exact Or.inr ⟨_, rfl⟩

theorem apply_inRange (op : Op) (s : PomodoroTimer)
    (hc : (op.apply s).settings.nonneg = true) (hs : s.inRange = true) :
    (op.apply s).inRange = true := by
  cases op with
  | start now => exact start_inRange now s hs
  | pause =>
    simp only [Op.apply, PomodoroTimer.pause]
    split
    · exact inRange_of_frame rfl rfl hs
    · exact hs
  | reset => exact inRange_of_eq _ _ rfl rfl (nonneg_parts _ hc).1
  | tick now =>
    simp only [Op.apply, PomodoroTimer.tick] at hc ⊢
    by_cases hz : s.timeRemaining.gtZero = true
    · simp only [hz, if_true]
      exact inRange_dec s _ hz rfl rfl hs
    · simp only [hz] at hc ⊢
      exact sessionComplete_inRange now s hc
  | sessionComplete now => exact sessionComplete_inRange now s hc
  | delayedStart now =>
    simp only [Op.apply, PomodoroTimer.delayedStart]
    split
    · exact hs
    · exact start_inRange now _ (inRange_of_frame rfl rfl hs)
  | changeInput field value =>
    simp only [Op.apply, PomodoroTimer.changeInput, PomodoroTimer.settingsChanged] at hc ⊢
    split
    · next hr =>
      simp only [hr, if_true] at hc
      exact loadSettings_inRange _ hc
    · cases field <;> exact inRange_of_frame rfl rfl hs
  | sessionNameEdited value => exact inRange_of_frame rfl rfl hs
  | selectSession sessionName =>
    simp only [Op.apply] at hc ⊢
    rcases selectSession_cases sessionName s with h | ⟨t, h⟩
    · exact inRange_of_frame h.1 h.2 hs
    · rw [h] at hc ⊢
      exact loadSettings_inRange t hc

/-- The meaning of `inRange` on the integers behind the two fields. -/
theorem inRange_iff (s : PomodoroTimer) :
    s.inRange = true ↔
      ∃ a b : Int, s.timeRemaining = JSNum.int a ∧ s.totalTime = JSNum.int b ∧
        0 ≤ a ∧ a ≤ b := by
  unfold PomodoroTimer.inRange
  cases htr : s.timeRemaining with
  | nan => simp [JSNum.geZero]
  | int a =>
    cases htt : s.totalTime with
    | nan => simp [JSNum.le]
    | int b => simp [JSNum.geZero, JSNum.le]

/-- C11: with configured durations that are not below 0, `0 <= timeRemaining <=
totalTime` holds in the constructed timer and is preserved by every call:
`start()`, `pause()`, `reset()`, `tick()`, `sessionComplete()`, the delayed
`start()` and the handlers that apply settings. The durations meant are those of
`settings` after the call, which for `reset()` and for a settings change are the
ones just loaded from the inputs. -/
theorem countdown_in_range (w b l k : JSNum) (name : String) (history : List HistoryRecord)
    (sessions : List (String × SessionData)) (op : Op) (s : PomodoroTimer) :
    ((PomodoroTimer.new w b l k name history sessions).settings.nonneg = true →
        (PomodoroTimer.new w b l k name history sessions).inRange = true) ∧
      ((op.apply s).settings.nonneg = true → s.inRange = true →
        (op.apply s).inRange = true) :=
  ⟨fun hc => inRange_of_eq _ _ rfl rfl (nonneg_parts _ hc).1, apply_inRange op s⟩

/-- Witness of C11: the default timer is constructed in range and stays in range
when its expired work phase is completed by a tick. -/
theorem countdown_in_range_witness :
    defaultTimer.inRange = true ∧
      ((Op.tick 60000).apply (runOps countdownOps oneMinuteTimer)).inRange = true :=
  ⟨(countdown_in_range (.int 25) (.int 5) (.int 15) (.int 4) "" [] [] Op.pause
      defaultTimer).1 (by decide),
    (countdown_in_range (.int 25) (.int 5) (.int 15) (.int 4) "" [] [] (Op.tick 60000)
      (runOps countdownOps oneMinuteTimer)).2 (by decide!) (by decide!)⟩

/-! ## Phase changes and counters -/

theorem sessionComplete_sessionCount (now : Int) (s : PomodoroTimer) :
    (s.sessionComplete now).sessionCount
      = s.sessionCount + (if s.currentSessionType = .work then 0 else 1) := by
  simp only [PomodoroTimer.sessionComplete, PomodoroTimer.scheduleStart,
    PomodoroTimer.updateTheme, PomodoroTimer.updateDisplay, PomodoroTimer.nextPhase,
    PomodoroTimer.playNotification, PomodoroTimer.saveCompleted,
    PomodoroTimer.saveSessionToHistory]
  by_cases hw : s.currentSessionType = .work
  · simp only [hw, if_true]
    split <;> rfl
  · simp only [hw, if_false]

theorem not_work_of_break {t : SessionType} (h : t = .shortBreak ∨ t = .longBreak) :
    t ≠ .work := by
  rcases h with h | h <;> rw [h] <;> decide

theorem tick_of_gtZero (now : Int) (s : PomodoroTimer) (h : s.timeRemaining.gtZero = true) :
    s.tick now = PomodoroTimer.updateDisplay { s with timeRemaining := s.timeRemaining.dec } := by
  simp [PomodoroTimer.tick, h]

theorem tick_of_not_gtZero (now : Int) (s : PomodoroTimer)
    (h : s.timeRemaining.gtZero = false) : s.tick now = s.sessionComplete now := by
  simp [PomodoroTimer.tick, h]

theorem changeInput_type (field : SettingsInput) (value : JSNum) (s : PomodoroTimer) :
    (s.changeInput field value).currentSessionType = s.currentSessionType := by
  cases field <;> cases h : s.isRunning <;>
    simp [PomodoroTimer.changeInput, PomodoroTimer.settingsChanged, PomodoroTimer.setInput,
      PomodoroTimer.updateDisplay, PomodoroTimer.loadSettings, h]

theorem selectSession_type (sessionName : String) (s : PomodoroTimer) :
    (s.selectSession sessionName).currentSessionType = s.currentSessionType := by
  simp only [PomodoroTimer.selectSession, PomodoroTimer.loadSelectedSession]
  split
  · rfl
  · split
    · rfl
    · cases h : s.isRunning <;>
        simp [PomodoroTimer.updateDisplay, PomodoroTimer.loadSettings, h]

/-- C12, counterexample: `reset()` on the timer paused in its short break, 300
seconds left, changes the phase to `work`; and `tick()` on the short break that
began with -60 seconds changes it to `work` at `timeRemaining = -60`. -/
theorem phase_change_with_time_left :
    pausedBreakTimer.currentSessionType = .shortBreak ∧
      pausedBreakTimer.timeRemaining = JSNum.int 300 ∧
      pausedBreakTimer.reset.currentSessionType = .work ∧
      negativeCountdownTimer.currentSessionType = .shortBreak ∧
      negativeCountdownTimer.timeRemaining = JSNum.int (-60) ∧
      (negativeCountdownTimer.tick 61000).currentSessionType = .work := by
  decide!

/-- C12, amended: `start()`, `pause()` and the handlers that apply settings never
change `currentSessionType`; when it differs after `tick()`, `timeRemaining` was
not above 0 before the tick, and was 0 if it was a number not below 0; `reset()`
sets the phase to `work` whatever time remains. -/
theorem phase_changes_only_at_expiry (now : Int) (s : PomodoroTimer)
    (field : SettingsInput) (value : JSNum) (sessionName : String) :
    (s.start now).currentSessionType = s.currentSessionType ∧
      s.pause.currentSessionType = s.currentSessionType ∧
      (s.changeInput field value).currentSessionType = s.currentSessionType ∧
      (s.selectSession sessionName).currentSessionType = s.currentSessionType ∧
      ((s.tick now).currentSessionType ≠ s.currentSessionType →
        s.timeRemaining.gtZero = false ∧
          (s.timeRemaining.geZero = true → s.timeRemaining = JSNum.int 0)) ∧
      s.reset.currentSessionType = .work := by
  refine ⟨?_, ?_, changeInput_type field value s, selectSession_type sessionName s, ?_, ?_⟩
  · unfold PomodoroTimer.start; split <;> rfl
  · unfold PomodoroTimer.pause; split <;> rfl
  · intro hne
    cases hz : s.timeRemaining.gtZero
    · refine ⟨rfl, fun hge => ?_⟩
      cases htr : s.timeRemaining with
      | nan => rw [htr] at hge; simp [JSNum.geZero] at hge
      | int v =>
        rw [htr] at hz hge
        simp only [JSNum.gtZero, decide_eq_false_iff_not] at hz
        simp only [JSNum.geZero, decide_eq_true_eq] at hge
        have : v = 0 := by omega
        rw [this]
    · exact absurd (by rw [tick_of_gtZero now s hz]; rfl) hne
  · simp [PomodoroTimer.reset, PomodoroTimer.updateTheme, PomodoroTimer.updateDisplay,
      PomodoroTimer.loadSettings]

/-- Witness of C12 (amended): the one-minute timer with its work phase counted
down to 0 changes phase on the next tick. -/
theorem phase_changes_only_at_expiry_witness :
    ((runOps countdownOps oneMinuteTimer).tick 60000).currentSessionType
        ≠ (runOps countdownOps oneMinuteTimer).currentSessionType ∧
      (runOps countdownOps oneMinuteTimer).timeRemaining = JSNum.int 0 :=
  ⟨by decide!,
    ((phase_changes_only_at_expiry 60000 (runOps countdownOps oneMinuteTimer) .workDuration
      (.int 1) "").2.2.2.2.1 (by decide!)).2 (by decide!)⟩

/-- C13: `sessionComplete()` adds exactly 1 to `totalSessions` when the phase
before the call is `work`, and the phase after it is a break; it leaves
`totalSessions` as it was when the phase before is a break; `start()`, `pause()`
and `tick()` with `timeRemaining > 0` do not change `totalSessions`. -/
theorem totalSessions_counts_work (now : Int) (s : PomodoroTimer) :
    (s.currentSessionType = .work →
      (s.sessionComplete now).totalSessions = s.totalSessions + 1 ∧
        ((s.sessionComplete now).currentSessionType = .shortBreak ∨
          (s.sessionComplete now).currentSessionType = .longBreak)) ∧
      (s.currentSessionType = .shortBreak ∨ s.currentSessionType = .longBreak →
        (s.sessionComplete now).totalSessions = s.totalSessions) ∧
      (s.start now).totalSessions = s.totalSessions ∧
      s.pause.totalSessions = s.totalSessions ∧
      (s.timeRemaining.gtZero = true → (s.tick now).totalSessions = s.totalSessions) := by
  obtain ⟨_, htotal, htype⟩ := sessionComplete_cycle now s
  refine ⟨fun hw => ?_, fun hb => ?_, ?_, ?_, fun hz => ?_⟩
  · rw [htotal, htype, if_pos hw, if_pos hw]
    refine ⟨rfl, ?_⟩
    split
    · exact Or.inr rfl
    · exact Or.inl rfl
  · rw [htotal, if_neg (not_work_of_break hb)]
    rfl
  · unfold PomodoroTimer.start; split <;> rfl
  · unfold PomodoroTimer.pause; split <;> rfl
  · rw [tick_of_gtZero now s hz]; rfl

/-- Witness of C13: the default timer completes its first work phase. -/
theorem totalSessions_counts_work_witness :
    defaultTimer.totalSessions = 0 ∧ (defaultTimer.sessionComplete 0).totalSessions = 1 ∧
      ((defaultTimer.sessionComplete 0).sessionComplete 0).totalSessions = 1 ∧
      (defaultTimer.tick 0).totalSessions = 0 :=
  ⟨by decide,
    ((totalSessions_counts_work 0 defaultTimer).1 (by decide)).1.trans (by decide),
    ((totalSessions_counts_work 0 (defaultTimer.sessionComplete 0)).2.1
      (Or.inl (by decide))).trans (by decide),
    ((totalSessions_counts_work 0 defaultTimer).2.2.2.2 (by decide)).trans (by decide)⟩

/-- C14, counterexample: the countdown of the timer constructed with
150119987579017 minutes is 9007199254741020; it is above 0, and after `tick()` it
is 9007199254741020 still: above 2^53 the decrement is rounded back. -/
theorem tick_stalls_above_safe_range :
    hugeTimer.timeRemaining = JSNum.int 9007199254741020 ∧
      hugeTimer.timeRemaining.gtZero = true ∧
      (hugeTimer.tick 0).timeRemaining = JSNum.int 9007199254741020 := by
  decide!

/-- C14, amended: with `0 < timeRemaining <= 2^53` (9007199254740992), `tick()`
takes exactly 1 off `timeRemaining`; with `timeRemaining > 0` it leaves
`currentSessionType`, `totalTime`, `sessionCount`, `totalSessions` and the stored
history unchanged; with `timeRemaining = 0` it takes nothing off and its result
is that of `sessionComplete()`. -/
theorem tick_spec (now : Int) (s : PomodoroTimer) :
    (∀ v : Int, s.timeRemaining = JSNum.int v → 0 < v → v ≤ 9007199254740992 →
        (s.tick now).timeRemaining = JSNum.int (v - 1)) ∧
      (s.timeRemaining.gtZero = true →
        (s.tick now).currentSessionType = s.currentSessionType ∧
          (s.tick now).totalTime = s.totalTime ∧
          (s.tick now).sessionCount = s.sessionCount ∧
          (s.tick now).totalSessions = s.totalSessions ∧
          (s.tick now).pomodoroHistory = s.pomodoroHistory) ∧
      (s.timeRemaining = JSNum.int 0 → s.tick now = s.sessionComplete now) := by
  refine ⟨fun v hv h0 h1 => ?_, fun hz => ?_, fun h0 => ?_⟩
  · have hz : s.timeRemaining.gtZero = true := by
      rw [hv]
      simpa [JSNum.gtZero] using h0
    rw [tick_of_gtZero now s hz]
    show s.timeRemaining.dec = JSNum.int (v - 1)
    rw [hv]
    exact dec_of_safe v h0 h1
  · rw [tick_of_gtZero now s hz]
    exact ⟨rfl, rfl, rfl, rfl, rfl⟩
  · exact tick_of_not_gtZero now s (by rw [h0]; rfl)

/-- Witness of C14 (amended): a tick of the default timer, and the tick that ends
the work phase of the one-minute timer. -/
theorem tick_spec_witness :
    (defaultTimer.tick 0).timeRemaining = JSNum.int (1500 - 1) ∧
      (defaultTimer.tick 0).totalTime = defaultTimer.totalTime ∧
      workDoneTimer.tick 60000 = workDoneTimer.sessionComplete 60000 :=
  ⟨(tick_spec 0 defaultTimer).1 1500 (by decide) (by decide) (by decide),
    ((tick_spec 0 defaultTimer).2.1 (by decide)).2.1,
    (tick_spec 60000 workDoneTimer).2.2 (by decide!)⟩

/-- C15: in a short or long break, `sessionComplete()` sets the phase to `work`,
adds exactly 1 to `sessionCount` and leaves `totalSessions` unchanged. -/
theorem sessionComplete_after_break (now : Int) (s : PomodoroTimer)
    (hb : s.currentSessionType = .shortBreak ∨ s.currentSessionType = .longBreak) :
    (s.sessionComplete now).currentSessionType = .work ∧
      (s.sessionComplete now).sessionCount = s.sessionCount + 1 ∧
      (s.sessionComplete now).totalSessions = s.totalSessions := by
  have hne := not_work_of_break hb
  obtain ⟨_, htotal, htype⟩ := sessionComplete_cycle now s
  rw [htype, htotal, sessionComplete_sessionCount, if_neg hne, if_neg hne, if_neg hne]
  exact ⟨rfl, rfl, rfl⟩

/-- Witness of C15: the short break after the first work phase of the default
timer is completed. -/
theorem sessionComplete_after_break_witness :
    completedOnceTimer.currentSessionType = .shortBreak ∧
      (completedOnceTimer.sessionComplete 1800000).currentSessionType = .work ∧
      (completedOnceTimer.sessionComplete 1800000).sessionCount = 2 ∧
      (completedOnceTimer.sessionComplete 1800000).totalSessions = 1 :=
  ⟨by decide,
    (sessionComplete_after_break 1800000 completedOnceTimer (Or.inl (by decide))).1,
    (sessionComplete_after_break 1800000 completedOnceTimer (Or.inl (by decide))).2.1.trans
      (by decide),
    (sessionComplete_after_break 1800000 completedOnceTimer (Or.inl (by decide))).2.2.trans
      (by decide)⟩

/-- C16: after `sessionComplete()`, `timeRemaining` and `totalTime` are both the
configured duration of the new phase: `settings.workDuration` for `work`,
`settings.shortBreak` for `shortBreak`, `settings.longBreak` for `longBreak`. -/
theorem sessionComplete_loads_phase_duration (now : Int) (s : PomodoroTimer) :
    (s.sessionComplete now).timeRemaining = (s.sessionComplete now).totalTime ∧
      (s.sessionComplete now).totalTime
        = (match (s.sessionComplete now).currentSessionType with
          | .work => (s.sessionComplete now).settings.workDuration
          | .shortBreak => (s.sessionComplete now).settings.shortBreak
          | .longBreak => (s.sessionComplete now).settings.longBreak) ∧
      (s.sessionComplete now).settings = s.settings := by
  obtain ⟨hset, _, htype⟩ := sessionComplete_cycle now s
  refine ⟨(sessionComplete_totalTime now s).symm, ?_, hset⟩
  rw [sessionComplete_totalTime, sessionComplete_timeRemaining, htype, hset]
  by_cases hw : s.currentSessionType = .work
  · simp only [hw, if_true]
    split <;> rfl
  · simp only [hw, if_false]

/-- C17: `start()` on a running timer returns the state as it is (no field, no
interval and no sent message changes); on a timer that is not running it sets
`isRunning`, clears `isPaused`, records `sessionStartTime = now`, sends the
`running` message, makes a new interval the timer's one, and leaves
`timeRemaining`, `totalTime`, the phase and both counters unchanged. -/
theorem start_spec (now : Int) (s : PomodoroTimer) :
    (s.isRunning = true → s.start now = s) ∧
      (s.isRunning = false →
        (s.start now).isRunning = true ∧
          (s.start now).isPaused = false ∧
          (s.start now).sessionStartTime = some now ∧
          (s.start now).timeRemaining = s.timeRemaining ∧
          (s.start now).totalTime = s.totalTime ∧
          (s.start now).currentSessionType = s.currentSessionType ∧
          (s.start now).sessionCount = s.sessionCount ∧
          (s.start now).totalSessions = s.totalSessions ∧
          (s.start now).sent = s.sent ++ [IpcMessage.timerStateChanged "running"] ∧
          (s.start now).timer = some (s.lastTimerId + 1) ∧
          (s.start now).intervals = s.intervals ++ [s.lastTimerId + 1]) := by
  constructor
  · intro h
    simp [PomodoroTimer.start, h]
  · intro h
    simp [PomodoroTimer.start, h]

/-- Witness of C17: `start()` on the default timer, and once more on the result. -/
theorem start_spec_witness :
    (defaultTimer.start 5).sessionStartTime = some 5 ∧
      (defaultTimer.start 5).timeRemaining = JSNum.int 1500 ∧
      (defaultTimer.start 5).start 9 = defaultTimer.start 5 :=
  ⟨((start_spec 5 defaultTimer).2 (by decide)).2.2.1,
    ((start_spec 5 defaultTimer).2 (by decide)).2.2.2.1.trans (by decide),
    (start_spec 9 (defaultTimer.start 5)).1 (by decide)⟩

/-- C20, counterexample: with 2^53 - 1 = 9007199254740991 minutes in the work
input the constructed countdown is the double 540431955284459456, not the
product 540431955284459460. -/
theorem work_duration_rounded :
    maxSafeTimer.workDurationInput = JSNum.int 9007199254740991 ∧
      maxSafeTimer.timeRemaining = JSNum.int 540431955284459456 ∧
      maxSafeTimer.timeRemaining ≠ JSNum.int (9007199254740991 * 60) := by
  decide!

/-- C20, amended: a newly constructed timer is in the `work` phase and not
running, with `sessionCount = 1`, `totalSessions = 0` and `timeRemaining =
totalTime =` the configured work duration; for a work input (minutes) of
magnitude up to 150119987579016, where the product does not pass 2^53, that
duration is the input times 60. -/
theorem new_spec (w b l k : JSNum) (name : String) (history : List HistoryRecord)
    (sessions : List (String × SessionData)) :
    (PomodoroTimer.new w b l k name history sessions).currentSessionType = .work ∧
      (PomodoroTimer.new w b l k name history sessions).isRunning = false ∧
      (PomodoroTimer.new w b l k name history sessions).sessionCount = 1 ∧
      (PomodoroTimer.new w b l k name history sessions).totalSessions = 0 ∧
      (PomodoroTimer.new w b l k name history sessions).timeRemaining
        = (PomodoroTimer.new w b l k name history sessions).settings.workDuration ∧
      (PomodoroTimer.new w b l k name history sessions).totalTime
        = (PomodoroTimer.new w b l k name history sessions).settings.workDuration ∧
      (∀ m : Int, w = JSNum.int m → -150119987579016 ≤ m → m ≤ 150119987579016 →
        (PomodoroTimer.new w b l k name history sessions).settings.workDuration
            = JSNum.int (m * 60) ∧
          (PomodoroTimer.new w b l k name history sessions).timeRemaining
            = JSNum.int (m * 60)) := by
  refine ⟨rfl, rfl, rfl, rfl, rfl, rfl, fun m hm hlo hhi => ?_⟩
  have hsafe : (JSNum.int m).mul60 = JSNum.int (m * 60) := mul60_of_safe m (by omega)
  rw [hm]
  exact ⟨hsafe, hsafe⟩

/-- Witness of C20 (amended): the default page, 25 minutes in the work input. -/
theorem new_spec_witness :
    defaultTimer.timeRemaining = JSNum.int (25 * 60) :=
  ((new_spec (.int 25) (.int 5) (.int 15) (.int 4) "" [] []).2.2.2.2.2.2 25 rfl
    (by decide) (by decide)).2

/-! ## Running and paused -/

theorem sessionComplete_flags (now : Int) (s : PomodoroTimer) :
    (s.sessionComplete now).isPaused = s.isPaused ∧
      (s.sessionComplete now).pendingStarts = s.pendingStarts + 1 := by
  simp only [PomodoroTimer.sessionComplete, PomodoroTimer.scheduleStart,
    PomodoroTimer.updateTheme, PomodoroTimer.updateDisplay, PomodoroTimer.nextPhase,
    PomodoroTimer.playNotification, PomodoroTimer.saveCompleted,
    PomodoroTimer.saveSessionToHistory]
  by_cases hw : s.currentSessionType = .work
  · simp only [hw, if_true]
    split <;> exact ⟨rfl, rfl⟩
  · simp [hw]

theorem tick_flags (now : Int) (s : PomodoroTimer) :
    (s.tick now).isPaused = s.isPaused ∧ s.pendingStarts ≤ (s.tick now).pendingStarts := by
  unfold PomodoroTimer.tick
  split
  · exact ⟨rfl, Nat.le_refl _⟩
  · exact ⟨(sessionComplete_flags now s).1, by rw [(sessionComplete_flags now s).2]; omega⟩

theorem changeInput_flags (field : SettingsInput) (value : JSNum) (s : PomodoroTimer) :
    (s.changeInput field value).isPaused = s.isPaused ∧
      (s.changeInput field value).pendingStarts = s.pendingStarts := by
  cases field <;> cases h : s.isRunning <;>
    simp [PomodoroTimer.changeInput, PomodoroTimer.settingsChanged, PomodoroTimer.setInput,
      PomodoroTimer.updateDisplay, PomodoroTimer.loadSettings, h]

theorem selectSession_flags (sessionName : String) (s : PomodoroTimer) :
    (s.selectSession sessionName).isPaused = s.isPaused ∧
      (s.selectSession sessionName).pendingStarts = s.pendingStarts := by
  simp only [PomodoroTimer.selectSession, PomodoroTimer.loadSelectedSession]
  split
  · exact ⟨rfl, rfl⟩
  · split
    · exact ⟨rfl, rfl⟩
    · cases h : s.isRunning <;>
        simp [PomodoroTimer.updateDisplay, PomodoroTimer.loadSettings, h]

theorem start_isRunning (now : Int) (s : PomodoroTimer) : (s.start now).isRunning = true := by
  cases h : s.isRunning <;> simp [PomodoroTimer.start, h]

theorem start_flags (now : Int) (s : PomodoroTimer) (h : s.isRunning = true → s.isPaused = false) :
    (s.start now).isPaused = false := by
  cases hr : s.isRunning
  · simp [PomodoroTimer.start, hr]
  · simpa [PomodoroTimer.start, hr] using h hr

theorem apply_not_paused (op : Op) (s : PomodoroTimer)
    (h : s.isRunning = true → s.isPaused = false) :
    (op.apply s).isRunning = true → (op.apply s).isPaused = false := by
  cases op with
  | start now => exact fun _ => start_flags now s h
  | pause =>
    simp only [Op.apply, PomodoroTimer.pause]
    split
    · intro hr; exact absurd hr (by simp)
    · exact h
  | reset =>
    intro hr
    have hf : s.reset.isRunning = false := (reset_intervals s).1
    exact absurd (hr.symm.trans hf) (by decide)
  | tick now =>
    simp only [Op.apply]
    rw [(tick_frame now s).1, (tick_flags now s).1]
    exact h
  | sessionComplete now =>
    simp only [Op.apply]
    rw [(sessionComplete_frame now s).1, (sessionComplete_flags now s).1]
    exact h
  | delayedStart now =>
    simp only [Op.apply, PomodoroTimer.delayedStart]
    split
    · exact h
    · exact fun _ => start_flags now _ h
  | changeInput field value =>
    simp only [Op.apply]
    rw [(changeInput_frame field value s).1, (changeInput_flags field value s).1]
    exact h
  | sessionNameEdited value => exact h
  | selectSession sessionName =>
    simp only [Op.apply]
    rw [(selectSession_frame sessionName s).1, (selectSession_flags sessionName s).1]
    exact h

theorem reachable_not_paused (s : PomodoroTimer) (h : Reachable s) :
    s.isRunning = true → s.isPaused = false := by
  induction h with
  | init w b l k name history sessions => intro _; rfl
  | step op s _ ih => exact apply_not_paused op s ih

theorem reachable_runOps (ops : List Op) :
    ∀ s : PomodoroTimer, Reachable s → Reachable (runOps ops s) := by
  induction ops with
  | nil => intro s h; exact h
  | cons op ops ih => intro s h; exact ih _ (Reachable.step op s h)

theorem pending_apply (op : Op) (s : PomodoroTimer) (h : ∀ t, op ≠ Op.delayedStart t) :
    s.pendingStarts ≤ (op.apply s).pendingStarts := by
  cases op with
  | start now => simp only [Op.apply, PomodoroTimer.start]; split <;> exact Nat.le_refl _
  | pause => simp only [Op.apply, PomodoroTimer.pause]; split <;> exact Nat.le_refl _
  | reset => exact Nat.le_refl _
  | tick now => exact (tick_flags now s).2
  | sessionComplete now =>
    simp only [Op.apply]
    rw [(sessionComplete_flags now s).2]
    omega
  | delayedStart now => exact absurd rfl (h now)
  | changeInput field value =>
    simp only [Op.apply]
    rw [(changeInput_flags field value s).2]
  | sessionNameEdited value => exact Nat.le_refl _
  | selectSession sessionName =>
    simp only [Op.apply]
    rw [(selectSession_flags sessionName s).2]

theorem pending_runOps (ops : List Op) :
    ∀ s : PomodoroTimer, (∀ op ∈ ops, ∀ t, op ≠ Op.delayedStart t) →
      s.pendingStarts ≤ (runOps ops s).pendingStarts := by
  induction ops with
  | nil => intro s _; exact Nat.le_refl _
  | cons op ops ih =>
    intro s h
    exact Nat.le_trans (pending_apply op s (h op (List.mem_cons_self _ _)))
      (ih _ (fun o ho => h o (List.mem_cons_of_mem _ ho)))

/-- C18: `pause()` on a timer that is not running returns the state as it is (no
field and no sent message changes). On a running timer (in every reachable state,
and in any state with `isRunning` true and `isPaused` false) it clears
`isRunning`, stops the interval, sends the `paused` message and leaves
`timeRemaining`, `totalTime`, `currentSessionType`, `sessionCount` and
`totalSessions` unchanged. -/
theorem pause_spec (s : PomodoroTimer) :
    (s.isRunning = false → s.pause = s) ∧
      (Reachable s → s.isRunning = true →
        s.pause.isRunning = false ∧
          s.pause.intervals = [] ∧
          s.pause.timeRemaining = s.timeRemaining ∧
          s.pause.totalTime = s.totalTime ∧
          s.pause.currentSessionType = s.currentSessionType ∧
          s.pause.sessionCount = s.sessionCount ∧
          s.pause.totalSessions = s.totalSessions ∧
          s.pause.sent = s.sent ++ [IpcMessage.timerStateChanged "paused"]) ∧
      (s.isRunning = true → s.isPaused = false →
        s.pause.isRunning = false ∧
          (∀ id, s.timer = some id → id ∉ s.pause.intervals) ∧
          s.pause.timeRemaining = s.timeRemaining ∧
          s.pause.totalTime = s.totalTime ∧
          s.pause.currentSessionType = s.currentSessionType ∧
          s.pause.sessionCount = s.sessionCount ∧
          s.pause.totalSessions = s.totalSessions) := by
  refine ⟨fun h => ?_, fun hr hrun => ?_, fun hrun hp => ?_⟩
  · simp [PomodoroTimer.pause, h]
  · have hp := reachable_not_paused s hr hrun
    obtain ⟨id, _, ht, hi⟩ := (reachable_timerInv s hr).1 hrun
    simp [PomodoroTimer.pause, hrun, hp, ht, hi, clearInterval]
  · refine ⟨?_, ?_, ?_, ?_, ?_, ?_, ?_⟩ <;> try simp [PomodoroTimer.pause, hrun, hp]
    intro id ht
    simp [ht, clearInterval]

/-- Witness of C18: `pause()` on the default timer before and after `start()`. -/
theorem pause_spec_witness :
    defaultTimer.pause = defaultTimer ∧
      runningTimer.pause.isRunning = false ∧ runningTimer.pause.intervals = [] ∧
      runningTimer.pause.timeRemaining = JSNum.int 1500 :=
  ⟨(pause_spec defaultTimer).1 (by decide),
    ((pause_spec runningTimer).2.1
      (Reachable.step (Op.start 0) _ (Reachable.init _ _ _ _ _ _ _)) (by decide)).1,
    ((pause_spec runningTimer).2.1
      (Reachable.step (Op.start 0) _ (Reachable.init _ _ _ _ _ _ _)) (by decide)).2.1,
    ((pause_spec runningTimer).2.2 (by decide) (by decide)).2.2.1.trans (by decide)⟩

/-- C19: let `sessionComplete()` run in any reachable state, whatever the phase,
and let any calls other than the scheduled callback follow during the delay
(`pause()` and `reset()` among them). The callback is still pending, and once it
has fired the timer is running with exactly one active interval, its own. -/
theorem restarts_after_completion (now later : Int) (s : PomodoroTimer) (hr : Reachable s)
    (ops : List Op) (hops : ∀ op ∈ ops, ∀ t, op ≠ Op.delayedStart t) :
    0 < (runOps ops (s.sessionComplete now)).pendingStarts ∧
      ((runOps ops (s.sessionComplete now)).delayedStart later).isRunning = true ∧
      ∃ id, ((runOps ops (s.sessionComplete now)).delayedStart later).timer = some id ∧
        ((runOps ops (s.sessionComplete now)).delayedStart later).intervals = [id] := by
  have hpend : 0 < (runOps ops (s.sessionComplete now)).pendingStarts := by
    have h1 := pending_runOps ops (s.sessionComplete now) hops
    rw [(sessionComplete_flags now s).2] at h1
    omega
  have hreach : Reachable ((runOps ops (s.sessionComplete now)).delayedStart later) :=
    Reachable.step (Op.delayedStart later) _
      (reachable_runOps ops _ (Reachable.step (Op.sessionComplete now) s hr))
  have hrun : ((runOps ops (s.sessionComplete now)).delayedStart later).isRunning = true := by
    unfold PomodoroTimer.delayedStart
    rw [if_neg (by omega)]
    exact start_isRunning later _
  obtain ⟨id, _, ht, hi⟩ := (reachable_timerInv _ hreach).1 hrun
  exact ⟨hpend, hrun, id, ht, hi⟩

/-- Witness of C19: the running default timer completes a phase, is paused and
reset during the delay, and runs again once the callback has fired. -/
theorem restarts_after_completion_witness :
    (runOps [Op.pause, Op.reset] (runningTimer.sessionComplete 1500000)).isRunning = false ∧
      ((runOps [Op.pause, Op.reset] (runningTimer.sessionComplete 1500000)).delayedStart
        1501000).isRunning = true :=
  ⟨by decide,
    (restarts_after_completion 1500000 1501000 runningTimer
      (Reachable.step (Op.start 0) _ (Reachable.init _ _ _ _ _ _ _)) [Op.pause, Op.reset]
      (by
        intro op hop t h
        subst h
        simp at hop)).2.1⟩

/-! ## The displayed time -/

theorem timeText_nat (n : Nat) (hn : n ≤ 9007199254740992) :
    PomodoroTimer.timeText (JSNum.int n)
      = padStart2 (toString (n / 60)) ++ ":" ++ padStart2 (toString (n % 60)) := by
  have h60 : (60 : Int) ≠ 0 := by decide
  have hdiv : (n : Int) / 60 = ((n / 60 : Nat) : Int) := (Int.ofNat_ediv n 60).symm
  have hmod : (n : Int).tmod 60 = ((n % 60 : Nat) : Int) := (Int.ofNat_tmod n 60).symm
  have hsafe : (n : Int).natAbs ≤ 9007199254740992 := by omega
  have hm : ((n / 60 : Nat) : Int).natAbs < 1000000000000000000000 := by omega
  have hs : ((n % 60 : Nat) : Int).natAbs < 1000000000000000000000 := by omega
  simp only [PomodoroTimer.timeText, JSNum.floorDiv60, JSNum.mod, h60, if_false, hsafe,
    if_true, JSNum.toJSString, hdiv, hmod, hm, hs]
  rfl

theorem padStart2_two_digits :
    ∀ m, m < 100 →
      padStart2 (toString m) = String.mk [Char.ofNat (48 + m / 10), Char.ofNat (48 + m % 10)] := by
  decide!

theorem padStart2_length (str : String) : (padStart2 str).length = max 2 str.length := by
  simp only [padStart2, String.length_append, String.length_mk, List.length_replicate]
  omega

/-- C27, counterexample: the timer constructed with 10^21 minutes has the
countdown 6 * 10^22 and shows `1e+21:00`: from 10^21 on a number is printed with
an exponent, not with all its decimal digits. -/
theorem exponent_in_time_text :
    longDisplayTimer.timeRemaining = JSNum.int 60000000000000000000000 ∧
      longDisplayTimer.updateDisplay.timeDisplay = "1e+21:00" ∧
      longDisplayTimer.updateDisplay.timeDisplay
        ≠ padStart2 (toString 1000000000000000000000) ++ ":" ++ padStart2 (toString 0) := by
  decide!

/-- C27, amended: for `timeRemaining` an integer n with 0 <= n <= 2^53
(9007199254740992), `updateDisplay()` writes the text `MM:SS` with MM = n / 60
(rounded down) and SS = n mod 60, each in decimal and padded with `0` on the left
to at least two characters; 60 * MM + SS = n and SS < 60; and for n < 6000 the
text is the five characters: two digits of MM, a colon, two digits of SS. -/
theorem updateDisplay_time_text (s : PomodoroTimer) (n : Nat)
    (h : s.timeRemaining = JSNum.int n) (hn : n ≤ 9007199254740992) :
    s.updateDisplay.timeDisplay
        = padStart2 (toString (n / 60)) ++ ":" ++ padStart2 (toString (n % 60)) ∧
      60 * (n / 60) + n % 60 = n ∧
      n % 60 < 60 ∧
      (∀ str : String,
        padStart2 str = String.mk (List.replicate (2 - str.length) '0') ++ str ∧
          (padStart2 str).length = max 2 str.length) ∧
      (n < 6000 →
        s.updateDisplay.timeDisplay.length = 5 ∧
          s.updateDisplay.timeDisplay
            = String.mk [Char.ofNat (48 + n / 60 / 10), Char.ofNat (48 + n / 60 % 10), ':',
                Char.ofNat (48 + n % 60 / 10), Char.ofNat (48 + n % 60 % 10)]) := by
  have htext : s.updateDisplay.timeDisplay
      = padStart2 (toString (n / 60)) ++ ":" ++ padStart2 (toString (n % 60)) := by
    show PomodoroTimer.timeText s.timeRemaining = _
    rw [h, timeText_nat n hn]
  refine ⟨htext, Nat.div_add_mod n 60, Nat.mod_lt n (by decide),
    fun str => ⟨rfl, padStart2_length str⟩, fun hn => ?_⟩
  have hm : n / 60 < 100 := by omega
  have hs : n % 60 < 100 := by omega
  have hform : s.updateDisplay.timeDisplay
      = String.mk [Char.ofNat (48 + n / 60 / 10), Char.ofNat (48 + n / 60 % 10), ':',
          Char.ofNat (48 + n % 60 / 10), Char.ofNat (48 + n % 60 % 10)] := by
    rw [htext, padStart2_two_digits _ hm, padStart2_two_digits _ hs]
    rfl
  exact ⟨by rw [hform]; rfl, hform⟩

/-- Witness of C27 (amended): the default timer shows 25:00, and 24:59 after one
tick. -/
theorem updateDisplay_time_text_witness :
    defaultTimer.updateDisplay.timeDisplay = "25:00" ∧
      (defaultTimer.tick 0).updateDisplay.timeDisplay.length = 5 ∧
      (defaultTimer.tick 0).updateDisplay.timeDisplay = "24:59" :=
  ⟨(updateDisplay_time_text defaultTimer 1500 (by decide) (by decide)).1.trans (by decide!),
    ((updateDisplay_time_text (defaultTimer.tick 0) 1499 (by decide) (by decide)).2.2.2.2
      (by decide)).1,
    ((updateDisplay_time_text (defaultTimer.tick 0) 1499 (by decide) (by decide)).2.2.2.2
      (by decide)).2.trans (by decide!)⟩

/-! ## The display ordinal and the completed work phases -/

theorem changeInput_counters (field : SettingsInput) (value : JSNum) (s : PomodoroTimer) :
    (s.changeInput field value).sessionCount = s.sessionCount ∧
      (s.changeInput field value).totalSessions = s.totalSessions ∧
      (s.changeInput field value).sessionStartTime = s.sessionStartTime := by
  cases field <;> cases h : s.isRunning <;>
    simp [PomodoroTimer.changeInput, PomodoroTimer.settingsChanged, PomodoroTimer.setInput,
      PomodoroTimer.updateDisplay, PomodoroTimer.loadSettings, h]

theorem selectSession_counters (sessionName : String) (s : PomodoroTimer) :
    (s.selectSession sessionName).sessionCount = s.sessionCount ∧
      (s.selectSession sessionName).totalSessions = s.totalSessions ∧
      (s.selectSession sessionName).sessionStartTime = s.sessionStartTime := by
  simp only [PomodoroTimer.selectSession, PomodoroTimer.loadSelectedSession]
  split
  · exact ⟨rfl, rfl, rfl⟩
  · split
    · exact ⟨rfl, rfl, rfl⟩
    · cases h : s.isRunning <;>
        simp [PomodoroTimer.updateDisplay, PomodoroTimer.loadSettings, h]

theorem ordinal_of_frame {s t : PomodoroTimer}
    (h1 : t.currentSessionType = s.currentSessionType) (h2 : t.sessionCount = s.sessionCount)
    (h3 : t.totalSessions = s.totalSessions)
    (hs : s.sessionCount
      = s.totalSessions + (if s.currentSessionType = .work then 1 else 0)) :
    t.sessionCount = t.totalSessions + (if t.currentSessionType = .work then 1 else 0) := by
  rw [h1, h2, h3]
  exact hs

theorem sessionComplete_ordinal (now : Int) (s : PomodoroTimer)
    (hs : s.sessionCount
      = s.totalSessions + (if s.currentSessionType = .work then 1 else 0)) :
    (s.sessionComplete now).sessionCount
      = (s.sessionComplete now).totalSessions
        + (if (s.sessionComplete now).currentSessionType = .work then 1 else 0) := by
  obtain ⟨_, htotal, htype⟩ := sessionComplete_cycle now s
  rw [sessionComplete_sessionCount, htotal, htype]
  by_cases hw : s.currentSessionType = .work
  · simp only [hw, if_true] at hs ⊢
    split <;> simp [hs]
  · simp only [hw, if_false] at hs ⊢
    simp [hs]

theorem start_ordinal (now : Int) (s : PomodoroTimer)
    (hs : s.sessionCount
      = s.totalSessions + (if s.currentSessionType = .work then 1 else 0)) :
    (s.start now).sessionCount
      = (s.start now).totalSessions
        + (if (s.start now).currentSessionType = .work then 1 else 0) := by
  unfold PomodoroTimer.start
  split
  · exact hs
  · exact hs

theorem apply_ordinal (op : Op) (s : PomodoroTimer)
    (hs : s.sessionCount
      = s.totalSessions + (if s.currentSessionType = .work then 1 else 0)) :
    (op.apply s).sessionCount
      = (op.apply s).totalSessions
        + (if (op.apply s).currentSessionType = .work then 1 else 0) := by
  cases op with
  | start now => exact start_ordinal now s hs
  | pause =>
    simp only [Op.apply, PomodoroTimer.pause]
    split
    · exact hs
    · exact hs
  | reset =>
    simp [Op.apply, PomodoroTimer.reset, PomodoroTimer.updateTheme,
      PomodoroTimer.updateDisplay, PomodoroTimer.loadSettings]
  | tick now =>
    simp only [Op.apply, PomodoroTimer.tick]
    split
    · exact hs
    · exact sessionComplete_ordinal now s hs
  | sessionComplete now => exact sessionComplete_ordinal now s hs
  | delayedStart now =>
    simp only [Op.apply, PomodoroTimer.delayedStart]
    split
    · exact hs
    · exact start_ordinal now _ hs
  | changeInput field value =>
    exact ordinal_of_frame (changeInput_type field value s)
      (changeInput_counters field value s).1 (changeInput_counters field value s).2.1 hs
  | sessionNameEdited value => exact hs
  | selectSession sessionName =>
    exact ordinal_of_frame (selectSession_type sessionName s)
      (selectSession_counters sessionName s).1 (selectSession_counters sessionName s).2.1 hs

theorem reachable_ordinal (s : PomodoroTimer) (h : Reachable s) :
    s.sessionCount = s.totalSessions + (if s.currentSessionType = .work then 1 else 0) := by
  induction h with
  | init w b l k name history sessions => rfl
  | step op s _ ih => exact apply_ordinal op s ih

/-- C23: in every state reachable from the constructor (by `start()`, `pause()`,
`reset()`, `tick()`, `sessionComplete()`, and also by the delayed `start()` and
the input handlers), `sessionCount = totalSessions + 1` in the `work` phase and
`sessionCount = totalSessions` in a short or long break. -/
theorem sessionCount_tied_to_totalSessions (s : PomodoroTimer) (h : Reachable s) :
    (s.currentSessionType = .work → s.sessionCount = s.totalSessions + 1) ∧
      (s.currentSessionType = .shortBreak ∨ s.currentSessionType = .longBreak →
        s.sessionCount = s.totalSessions) := by
  have hord := reachable_ordinal s h
  constructor
  · intro hw
    rw [hord, if_pos hw]
  · intro hb
    rw [hord, if_neg (not_work_of_break hb)]
    rfl

/-- Witness of C23: the default timer after one completed work phase. -/
theorem sessionCount_tied_to_totalSessions_witness :
    Reachable completedOnceTimer ∧ completedOnceTimer.currentSessionType = .shortBreak ∧
      completedOnceTimer.sessionCount = completedOnceTimer.totalSessions :=
  ⟨Reachable.step (Op.sessionComplete 1500000) _
      (Reachable.step (Op.start 0) _ (Reachable.init _ _ _ _ _ _ _)),
    by decide,
    (sessionCount_tied_to_totalSessions completedOnceTimer
      (Reachable.step (Op.sessionComplete 1500000) _
        (Reachable.step (Op.start 0) _ (Reachable.init _ _ _ _ _ _ _)))).2
      (Or.inl (by decide))⟩

/-! ## When the timer is marked paused -/

theorem reset_isPaused (s : PomodoroTimer) : s.reset.isPaused = false := by
  simp [PomodoroTimer.reset, PomodoroTimer.updateTheme, PomodoroTimer.updateDisplay,
    PomodoroTimer.loadSettings]

theorem pause_isPaused (s : PomodoroTimer) (h : s.isRunning = true → s.isPaused = false) :
    s.pause.isPaused = (s.isPaused || s.isRunning) := by
  cases hr : s.isRunning
  · simp [PomodoroTimer.pause, hr]
  · simp [PomodoroTimer.pause, hr, h hr]

theorem apply_isPaused (op : Op) (s : PomodoroTimer)
    (h : s.isRunning = true → s.isPaused = false) :
    (op.apply s).isPaused
      = (match op with
        | .pause => s.isPaused || s.isRunning
        | .start _ => false
        | .reset => false
        | .delayedStart _ => if s.pendingStarts = 0 then s.isPaused else false
        | _ => s.isPaused) := by
  cases op with
  | start now => exact start_flags now s h
  | pause => exact pause_isPaused s h
  | reset => exact reset_isPaused s
  | tick now => exact (tick_flags now s).1
  | sessionComplete now => exact (sessionComplete_flags now s).1
  | delayedStart now =>
    simp only [Op.apply, PomodoroTimer.delayedStart]
    split
    · rfl
    · exact start_flags now _ h
  | changeInput field value => exact (changeInput_flags field value s).1
  | sessionNameEdited value => rfl
  | selectSession sessionName => exact (selectSession_flags sessionName s).1

theorem runOps_isPaused (ops : List Op) :
    ∀ s : PomodoroTimer, (s.isRunning = true → s.isPaused = false) →
      (runOps ops s).isPaused = pausePending ops s s.isPaused := by
  induction ops with
  | nil => intro s _; rfl
  | cons op ops ih =>
    intro s h
    simp only [runOps, pausePending]
    rw [ih (op.apply s) (apply_not_paused op s h), apply_isPaused op s h]

/-- C25, counterexample: `pause()` is called on the freshly constructed timer and
no `start()` or `reset()` follows, yet `isPaused` is false (the timer was not
running, so the call did nothing). -/
theorem pause_without_effect :
    defaultTimer.isRunning = false ∧ (runOps [Op.pause] defaultTimer).isPaused = false ∧
      (runOps [Op.reset, Op.pause] runningTimer).isPaused = false := by
  decide

/-- C25, amended: in every reachable state `isRunning` and `isPaused` are not both
true; and after any sequence of calls on a constructed timer, `isPaused` is true
exactly when a `pause()` was called on a running timer and no `start()` (the
delayed one included) or `reset()` has followed it. -/
theorem paused_iff_effective_pause (s : PomodoroTimer) (h : Reachable s) (ops : List Op) :
    ¬ (s.isRunning = true ∧ s.isPaused = true) ∧
      ((runOps ops s).isPaused = true ↔ pausePending ops s s.isPaused = true) ∧
      ∀ (w b l k : JSNum) (name : String) (history : List HistoryRecord)
        (sessions : List (String × SessionData)),
        ((runOps ops (PomodoroTimer.new w b l k name history sessions)).isPaused = true ↔
          pausePending ops (PomodoroTimer.new w b l k name history sessions) false = true) := by
  have hn := reachable_not_paused s h
  refine ⟨fun ⟨hr, hp⟩ => ?_, ?_, ?_⟩
  · rw [hn hr] at hp
    exact absurd hp (by decide)
  · rw [runOps_isPaused ops s hn]
  · intro w b l k name history sessions
    rw [runOps_isPaused ops _ (reachable_not_paused _ (Reachable.init w b l k name history sessions))]
    rfl

/-- Witness of C25 (amended): start, pause: paused; start again: not paused. -/
theorem paused_iff_effective_pause_witness :
    Reachable runningTimer ∧ (runOps [Op.pause] runningTimer).isPaused = true ∧
      ¬ (runOps [Op.pause, Op.start 9] runningTimer).isPaused = true :=
  ⟨Reachable.step (Op.start 0) _ (Reachable.init _ _ _ _ _ _ _),
    (paused_iff_effective_pause runningTimer
      (Reachable.step (Op.start 0) _ (Reachable.init _ _ _ _ _ _ _)) [Op.pause]).2.1.mpr
      (by decide),
    fun hp => absurd
      ((paused_iff_effective_pause runningTimer
        (Reachable.step (Op.start 0) _ (Reachable.init _ _ _ _ _ _ _))
        [Op.pause, Op.start 9]).2.1.mp hp) (by decide)⟩

/-! ## The start time of a session -/

theorem sessionComplete_startTime (now : Int) (s : PomodoroTimer) :
    (s.sessionComplete now).sessionStartTime = s.sessionStartTime := by
  simp only [PomodoroTimer.sessionComplete, PomodoroTimer.scheduleStart,
    PomodoroTimer.updateTheme, PomodoroTimer.updateDisplay, PomodoroTimer.nextPhase,
    PomodoroTimer.playNotification, PomodoroTimer.saveCompleted,
    PomodoroTimer.saveSessionToHistory]
  by_cases hw : s.currentSessionType = .work
  · simp only [hw, if_true]
    split <;> rfl
  · simp only [hw, if_false]

theorem start_of_running (now : Int) (s : PomodoroTimer) (h : s.isRunning = true) :
    s.start now = s := by
  simp [PomodoroTimer.start, h]

theorem apply_keeps_running (op : Op) (s : PomodoroTimer) (hr : s.isRunning = true)
    (hop : op ≠ Op.pause ∧ op ≠ Op.reset) :
    (op.apply s).isRunning = true ∧ (op.apply s).sessionStartTime = s.sessionStartTime := by
  cases op with
  | start now =>
    simp only [Op.apply]
    rw [start_of_running now s hr]
    exact ⟨hr, rfl⟩
  | pause => exact absurd rfl hop.1
  | reset => exact absurd rfl hop.2
  | tick now =>
    simp only [Op.apply]
    refine ⟨by rw [(tick_frame now s).1]; exact hr, ?_⟩
    unfold PomodoroTimer.tick
    split
    · rfl
    · exact sessionComplete_startTime now s
  | sessionComplete now =>
    simp only [Op.apply]
    exact ⟨by rw [(sessionComplete_frame now s).1]; exact hr, sessionComplete_startTime now s⟩
  | delayedStart now =>
    simp only [Op.apply, PomodoroTimer.delayedStart]
    split
    · exact ⟨hr, rfl⟩
    · have hs := start_of_running now { s with pendingStarts := s.pendingStarts - 1 } hr
      rw [hs]
      exact ⟨hr, rfl⟩
  | changeInput field value =>
    simp only [Op.apply]
    exact ⟨by rw [(changeInput_frame field value s).1]; exact hr,
      (changeInput_counters field value s).2.2⟩
  | sessionNameEdited value => exact ⟨hr, rfl⟩
  | selectSession sessionName =>
    simp only [Op.apply]
    exact ⟨by rw [(selectSession_frame sessionName s).1]; exact hr,
      (selectSession_counters sessionName s).2.2⟩

theorem runOps_keeps_running (ops : List Op) :
    ∀ s : PomodoroTimer, s.isRunning = true → (∀ op ∈ ops, op ≠ Op.pause ∧ op ≠ Op.reset) →
      (runOps ops s).isRunning = true ∧ (runOps ops s).sessionStartTime = s.sessionStartTime := by
  induction ops with
  | nil => intro s hr _; exact ⟨hr, rfl⟩
  | cons op ops ih =>
    intro s hr h
    have h1 := apply_keeps_running op s hr (h op (List.mem_cons_self _ _))
    have h2 := ih (op.apply s) h1.1 (fun o ho => h o (List.mem_cons_of_mem _ ho))
    exact ⟨h2.1, h2.2.trans h1.2⟩

theorem sessionComplete_last_record (now : Int) (s : PomodoroTimer)
    (hw : s.currentSessionType = .work) :
    (s.sessionComplete now).pomodoroHistory.getLast? = some (s.completedRecord now) := by
  rw [sessionComplete_history, PomodoroTimer.saveCompleted, if_pos hw, stored_eq]
  simp

/-- C24: `sessionComplete()` leaves `isRunning` and `sessionStartTime` as they
are. So after one `start()` at time t0 and any calls other than `pause()` and
`reset()`, the timer is still running, a delayed `start()` changes nothing,
`sessionStartTime` is still t0, and the record of a work phase completed at time
`now` has start time t0 and `actualDuration` = (now - t0) / 1000 rounded: the time
since the first start, not since the beginning of that work phase. -/
theorem sessionStartTime_stays (t0 now : Int) (s0 : PomodoroTimer) (h0 : s0.isRunning = false)
    (ops : List Op) (hops : ∀ op ∈ ops, op ≠ Op.pause ∧ op ≠ Op.reset) :
    (∀ (t : Int) (s : PomodoroTimer),
        (s.sessionComplete t).isRunning = s.isRunning ∧
          (s.sessionComplete t).sessionStartTime = s.sessionStartTime) ∧
      (runOps ops (s0.start t0)).isRunning = true ∧
      (runOps ops (s0.start t0)).start now = runOps ops (s0.start t0) ∧
      (runOps ops (s0.start t0)).sessionStartTime = some t0 ∧
      ((runOps ops (s0.start t0)).currentSessionType = .work →
        ∃ r, ((runOps ops (s0.start t0)).sessionComplete now).pomodoroHistory.getLast? = some r ∧
          r.startTime = some t0 ∧ r.endTime = now ∧
          r.actualDuration = (now - t0 + 500) / 1000) := by
  have hstart : (s0.start t0).isRunning = true ∧ (s0.start t0).sessionStartTime = some t0 := by
    simp [PomodoroTimer.start, h0]
  obtain ⟨hrun, htime⟩ := runOps_keeps_running ops (s0.start t0) hstart.1 hops
  rw [hstart.2] at htime
  refine ⟨fun t s => ⟨(sessionComplete_frame t s).1, sessionComplete_startTime t s⟩, hrun,
    start_of_running now _ hrun, htime, fun hw => ?_⟩
  refine ⟨_, sessionComplete_last_record now _ hw, ?_, rfl, ?_⟩
  · exact htime
  · show roundSeconds now (runOps ops (s0.start t0)).sessionStartTime = _
    rw [htime]
    simp [roundSeconds]

/-- Witness of C24: the run of the one-minute timer whose second work phase
begins at 362 s; its record, written at 423 s, counts 423 seconds from time 0. -/
theorem sessionStartTime_stays_witness :
    (runOps secondWorkOps.tail (oneMinuteTimer.start 0)).sessionStartTime = some 0 ∧
      ∃ r, ((runOps secondWorkOps.tail (oneMinuteTimer.start 0)).sessionComplete
          423000).pomodoroHistory.getLast? = some r ∧
        r.startTime = some 0 ∧ r.endTime = 423000 ∧
        r.actualDuration = (423000 - 0 + 500) / 1000 :=
  ⟨(sessionStartTime_stays 0 423000 oneMinuteTimer (by decide) secondWorkOps.tail
      (by decide!)).2.2.2.1,
    (sessionStartTime_stays 0 423000 oneMinuteTimer (by decide) secondWorkOps.tail
      (by decide!)).2.2.2.2 (by decide!)⟩

/-- C21, at the failing input: the one-minute timer runs without a pause from
`start()` at time 0. Its short break ends with the tick at 362 s, so the second
work phase starts there; when that phase is completed at 423 s, the record has the
right planned duration (60) and end time, but start time 0 and an
`actualDuration` of 423 seconds: `sessionStartTime` is still the time of the
first `start()`, not the time the completed work phase started. -/
theorem second_record_counts_from_first_start :
    (runOps breakEndOps oneMinuteTimer).currentSessionType = .shortBreak ∧
      ((runOps breakEndOps oneMinuteTimer).tick 362000).currentSessionType = .work ∧
      secondWorkTimer.currentSessionType = .work ∧
      secondWorkTimer.timeRemaining = JSNum.int 0 ∧
      secondWorkTimer.totalTime = JSNum.int 60 ∧
      secondWorkTimer.sessionStartTime = some 0 ∧
      (secondWorkTimer.tick 423000).pomodoroHistory.map
          (fun r => (r.name, r.type, r.plannedDuration, r.startTime, r.endTime,
            r.actualDuration))
        = [("General Work", .work, .int 60, some 0, 61000, 61),
            ("General Work", .work, .int 60, some 0, 423000, 423)] := by
  decide!

/-! ## Side effects that throw -/

/-- Without a failure the two variants are the methods themselves. -/
theorem tickWhen_none (now : Int) (s : PomodoroTimer) :
    s.sessionCompleteWhen none now = .ok (s.sessionComplete now) ∧
      s.tickWhen none now = .ok (s.tick now) := by
  have h1 : s.sessionCompleteWhen none now = .ok (s.sessionComplete now) := by
    simp [PomodoroTimer.sessionCompleteWhen, PomodoroTimer.sessionComplete]
  refine ⟨h1, ?_⟩
  unfold PomodoroTimer.tickWhen PomodoroTimer.tick
  split
  · rfl
  · exact h1

/-- C22, counterexample: the work phase of the running one-minute timer has
counted down to 0. A tick whose history write succeeds moves on to the short
break. A tick whose history write throws leaves phase, counters and countdown as
they were, and so does the next one: the timer stays at 0 in the work phase. A
tick whose notification throws has stored the record but makes no transition
either, and the next tick stores the record a second time. -/
theorem failed_side_effect_blocks_transition :
    workDoneTimer.isRunning = true ∧
      workDoneTimer.currentSessionType = .work ∧
      workDoneTimer.timeRemaining = JSNum.int 0 ∧
      (workDoneTimer.tick 61000).currentSessionType = .shortBreak ∧
      (workDoneTimer.tick 61000).totalSessions = 1 ∧
      threw (workDoneTimer.tickWhen (some .historyWrite) 61000) = true ∧
      (settle (workDoneTimer.tickWhen (some .historyWrite) 61000)).currentSessionType
        = .work ∧
      (settle (workDoneTimer.tickWhen (some .historyWrite) 61000)).totalSessions = 0 ∧
      (settle (workDoneTimer.tickWhen (some .historyWrite) 61000)).timeRemaining
        = JSNum.int 0 ∧
      (settle ((settle (workDoneTimer.tickWhen (some .historyWrite) 61000)).tickWhen
        (some .historyWrite) 62000)).currentSessionType = .work ∧
      threw (workDoneTimer.tickWhen (some .notification) 61000) = true ∧
      (settle (workDoneTimer.tickWhen (some .notification) 61000)).currentSessionType
        = .work ∧
      (settle (workDoneTimer.tickWhen (some .notification) 61000)).pomodoroHistory.length
        = 1 ∧
      (settle ((settle (workDoneTimer.tickWhen (some .notification) 61000)).tickWhen
        (some .notification) 62000)).pomodoroHistory.length = 2 := by
  decide!

theorem saveCompleted_frame (now : Int) (s : PomodoroTimer) :
    (s.saveCompleted now).currentSessionType = s.currentSessionType ∧
      (s.saveCompleted now).totalSessions = s.totalSessions ∧
      (s.saveCompleted now).sessionCount = s.sessionCount ∧
      (s.saveCompleted now).timeRemaining = s.timeRemaining ∧
      (s.saveCompleted now).totalTime = s.totalTime ∧
      (s.saveCompleted now).isRunning = s.isRunning ∧
      (s.saveCompleted now).timer = s.timer ∧
      (s.saveCompleted now).intervals = s.intervals ∧
      (s.saveCompleted now).pendingStarts = s.pendingStarts := by
  unfold PomodoroTimer.saveCompleted
  split
  · exact ⟨rfl, rfl, rfl, rfl, rfl, rfl, rfl, rfl, rfl⟩
  · exact ⟨rfl, rfl, rfl, rfl, rfl, rfl, rfl, rfl, rfl⟩

theorem tickWhen_throws (f : SideEffect) (now : Int) (s : PomodoroTimer)
    (h0 : s.timeRemaining.gtZero = false)
    (hf : f = .notification ∨ s.currentSessionType = .work) :
    s.tickWhen (some f) now
      = .error (if f = .historyWrite then s else s.saveCompleted now) := by
  simp only [PomodoroTimer.tickWhen, h0, Bool.false_eq_true, if_false,
    PomodoroTimer.sessionCompleteWhen]
  cases f with
  | historyWrite =>
    have hw : s.currentSessionType = .work := by
      rcases hf with h | h
      · exact absurd h (by decide)
      · exact h
    simp [hw]
  | notification => simp

/-- C22, amended: nothing in `sessionComplete()` catches. When the tick that finds
the countdown at 0 runs into a history write or a notification that throws, the
call is abandoned before the phase transition: `currentSessionType`,
`totalSessions`, `sessionCount`, `timeRemaining` and `totalTime` keep the values
they had before the call (after a failed history write the whole state is as
before; a failed notification comes after the record has been stored),
`isRunning` and the interval are unchanged, so the ticks go on, and the next tick
throws in the same way. A history write that throws is not reached in a break:
there the call runs to its end. -/
theorem uncaught_side_effect_skips_transition (f : SideEffect) (now later : Int)
    (s : PomodoroTimer) (h0 : s.timeRemaining.gtZero = false) :
    (f = .notification ∨ s.currentSessionType = .work →
      threw (s.tickWhen (some f) now) = true ∧
        (settle (s.tickWhen (some f) now)).currentSessionType = s.currentSessionType ∧
        (settle (s.tickWhen (some f) now)).totalSessions = s.totalSessions ∧
        (settle (s.tickWhen (some f) now)).sessionCount = s.sessionCount ∧
        (settle (s.tickWhen (some f) now)).timeRemaining = s.timeRemaining ∧
        (settle (s.tickWhen (some f) now)).totalTime = s.totalTime ∧
        (settle (s.tickWhen (some f) now)).isRunning = s.isRunning ∧
        (settle (s.tickWhen (some f) now)).intervals = s.intervals ∧
        (f = .historyWrite → settle (s.tickWhen (some f) now) = s) ∧
        (f = .notification →
          settle (s.tickWhen (some f) now) = s.saveCompleted now) ∧
        threw ((settle (s.tickWhen (some f) now)).tickWhen (some f) later) = true) ∧
      (f = .historyWrite → s.currentSessionType ≠ .work →
        s.tickWhen (some f) now = .ok (s.tick now)) := by
  constructor
  · intro hf
    have hthrow := tickWhen_throws f now s h0 hf
    have hsettle : settle (s.tickWhen (some f) now)
        = if f = .historyWrite then s else s.saveCompleted now := by
      rw [hthrow]
      rfl
    obtain ⟨h1, h2, h3, h4, h5, h6, _, h8, _⟩ := saveCompleted_frame now s
    have hnext : threw ((settle (s.tickWhen (some f) now)).tickWhen (some f) later) = true := by
      rw [hsettle]
      cases f with
      | historyWrite =>
        rw [if_pos rfl, tickWhen_throws _ later s h0 hf]
        rfl
      | notification =>
        rw [if_neg (by decide),
          tickWhen_throws _ later (s.saveCompleted now) (by rw [h4]; exact h0) (Or.inl rfl)]
        rfl
    refine ⟨by rw [hthrow]; rfl, ?_, ?_, ?_, ?_, ?_, ?_, ?_, ?_, ?_, hnext⟩
    all_goals rw [hsettle]
    all_goals cases f <;> simp [h1, h2, h3, h4, h5, h6, h8]
  · intro hf hb
    subst hf
    have h1 : s.sessionCompleteWhen (some .historyWrite) now = .ok (s.sessionComplete now) := by
      simp [PomodoroTimer.sessionCompleteWhen, PomodoroTimer.sessionComplete, hb]
    unfold PomodoroTimer.tickWhen PomodoroTimer.tick
    simp only [h0, Bool.false_eq_true, if_false]
    exact h1

/-- Witness of C22 (amended): the one-minute timer at the end of its work phase;
the tick whose history write throws leaves it as it is. -/
theorem uncaught_side_effect_skips_transition_witness :
    workDoneTimer.timeRemaining.gtZero = false ∧
      threw (workDoneTimer.tickWhen (some .historyWrite) 61000) = true ∧
      settle (workDoneTimer.tickWhen (some .historyWrite) 61000) = workDoneTimer :=
  ⟨by decide!,
    ((uncaught_side_effect_skips_transition .historyWrite 61000 62000 workDoneTimer
      (by decide!)).1 (Or.inr (by decide!))).1,
    ((uncaught_side_effect_skips_transition .historyWrite 61000 62000 workDoneTimer
      (by decide!)).1 (Or.inr (by decide!))).2.2.2.2.2.2.2.2.1 rfl⟩

/-- C26, at the failing input: the default timer was started, ticked ten times
and paused. The tray command on this paused timer throws (there is no method
`resume`) and the timer stays stopped and paused, no interval active. On the
running timer the command does what `pause()` does, and on the stopped, never
paused timer it changes nothing. -/
theorem tray_pause_does_not_resume :
    pausedTimer.isPaused = true ∧
      pausedTimer.isRunning = false ∧
      pausedTimer.timeRemaining = JSNum.int 1490 ∧
      threw pausedTimer.trayPauseTimer = true ∧
      (settle pausedTimer.trayPauseTimer).isRunning = false ∧
      (settle pausedTimer.trayPauseTimer).isPaused = true ∧
      (settle pausedTimer.trayPauseTimer).intervals = [] ∧
      threw runningTimer.trayPauseTimer = false ∧
      (settle runningTimer.trayPauseTimer).isRunning = runningTimer.pause.isRunning ∧
      (settle runningTimer.trayPauseTimer).isPaused = true ∧
      threw defaultTimer.trayPauseTimer = false ∧
      (settle defaultTimer.trayPauseTimer).isRunning = false ∧
      (settle defaultTimer.trayPauseTimer).isPaused = false := by
  decide!
